import Mathlib

/-!
# Shogun: ARD FITC kernel, first-order minimizer, neural network, bagging, linear time MMD

A shallow embedding of

* `src/shogun/machine/gp/GaussianARDFITCKernel.cpp`
  (`obtain_from_generic`, `get_parameter_gradient`),
* `src/shogun/optimization/FirstOrderMinimizer.h`,
* `src/shogun/neuralnets/NeuralNetwork.h`,
* the unit tests `tests/unit/multiclass/BaggingMachine_unittest.cc` and
  `tests/unit/statistics/LinearTimeMMD_unittest.cc`, whose classes under test are not in
  the sources and are modelled.

Floating point numbers are read as elements of an arbitrary field `K`
(exact arithmetic), the reals where the tests fix a value; errors raised through
`REQUIRE`, `SG_ERROR` and `SG_SERROR` are values of `Except String`.
-/

namespace Shogun

/-! ## Dense containers -/

/-- Dense vector `SGVector<T>`: its length and the memory it points to. -/
structure SGVector (K : Type) where
  vlen : Nat
  vector : Nat → K

/-- Dense matrix `SGMatrix<T>`: its shape and the column-major memory it points to. -/
structure SGMatrix (K : Type) where
  num_rows : Nat
  num_cols : Nat
  matrix : Nat → K

namespace SGMatrix

variable {K : Type}

/-- Entry access `operator()(i, j)`, that is `matrix[j*num_rows + i]`. -/
def elem (M : SGMatrix K) (i j : Nat) : K :=
  M.matrix (j * M.num_rows + i)

/-- Assignment `M(i, j) = v`. -/
def set (M : SGMatrix K) (i j : Nat) (v : K) : SGMatrix K :=
  { M with matrix := Function.update M.matrix (j * M.num_rows + i) v }

/-- Memory seen from `get_column_vector(col)`, the address `&matrix[col*num_rows]`. -/
def get_column_vector (M : SGMatrix K) (col : Nat) : Nat → K :=
  fun p => M.matrix (col * M.num_rows + p)

/-- Effect on `M` of overwriting the first `n` cells of the memory at
`get_column_vector(col)` with `data` (a store through a non-owning view). -/
def store_column (M : SGMatrix K) (col n : Nat) (data : Nat → K) : SGMatrix K :=
  { M with
    matrix := fun q =>
      if col * M.num_rows ≤ q ∧ q < col * M.num_rows + n then data (q - col * M.num_rows)
      else M.matrix q }

/-- Filling `set_const(v)`. -/
def set_const (M : SGMatrix K) (v : K) : SGMatrix K :=
  { M with matrix := fun q => if q < M.num_rows * M.num_cols then v else M.matrix q }

end SGMatrix

/-! ## The linalg routines used by the kernel -/

namespace linalg

variable {K : Type} [Field K]

/-- Modelled from the spec: `linalg::add(a, b, c, alpha, beta)` is not in the sources;
it is read as `c = alpha*a + beta*b` on vectors of one length, so that
`add(a, b, c, 1, -1)` is `c = a - b`. The result is the new content of `c`. -/
def add (a b : SGVector K) (alpha beta : K) : Except String (SGVector K) :=
  if a.vlen = b.vlen then
    .ok { vlen := a.vlen, vector := fun i => alpha * a.vector i + beta * b.vector i }
  else .error "linalg::add: dimension mismatch"

/-- Modelled from the spec: `linalg::matrix_product(A, B, C)` is not in the sources;
it is read as the matrix product `C = A B` of an `m x k` matrix by a `k x n` matrix
into the `m x n` matrix `C`, and as an error when the shapes are not compatible.
The result is the new content of `C`. -/
def matrix_product (A B C : SGMatrix K) : Except String (SGMatrix K) :=
  if A.num_cols = B.num_rows ∧ C.num_rows = A.num_rows ∧ C.num_cols = B.num_cols then
    .ok { C with
      matrix := fun q =>
        if q < C.num_rows * C.num_cols then
          ∑ t in Finset.range A.num_cols,
            A.elem (q % C.num_rows) t * B.elem t (q / C.num_rows)
        else C.matrix q }
  else .error "linalg::matrix_product: dimension mismatch"

/-- Modelled from the spec: `linalg::elementwise_product(A, B, C)` is not in the sources;
it is read as the entrywise product `C(i,j) = A(i,j) B(i,j)` of matrices of one shape,
and as an error when the shapes differ. The result is the new content of `C`. -/
def elementwise_product (A B C : SGMatrix K) : Except String (SGMatrix K) :=
  if A.num_rows = B.num_rows ∧ A.num_cols = B.num_cols ∧
      C.num_rows = A.num_rows ∧ C.num_cols = A.num_cols then
    .ok { C with
      matrix := fun q =>
        if q < C.num_rows * C.num_cols then A.matrix q * B.matrix q else C.matrix q }
  else .error "linalg::elementwise_product: dimension mismatch"

end linalg

/-! ## The kernel -/

/-- The ARD kernel types `EARDKernelType`. -/
inductive EARDKernelType where
  | KT_SCALAR
  | KT_DIAG
  | KT_FULL
  deriving DecidableEq, Repr

/-- Modelled from the spec: the class `CDotFeatures` is not in the sources; a feature
object has a number of vectors, a feature space dimension and its vectors. -/
structure CDotFeatures (K : Type) where
  num_vectors : Nat
  dim_feature_space : Nat
  feature_vector : Nat → Nat → K

/-- Modelled from the spec: `CDotFeatures::get_computed_dot_feature_vector(num)` is not
in the sources; it returns a fresh dense copy of vector `num`. -/
def CDotFeatures.get_computed_dot_feature_vector {K : Type} (f : CDotFeatures K)
    (num : Nat) : SGVector K :=
  { vlen := f.dim_feature_space, vector := f.feature_vector num }

/-- The fields of `CGaussianARDFITCKernel` (inherited ones included) that
`get_parameter_gradient` reads. `kernel` is the kernel value `kernel(idx_a, idx_b)`,
which the class inherits and which is not in the sources. -/
structure CGaussianARDFITCKernel (K : Type) where
  lhs : Option (CDotFeatures K)
  rhs : Option (CDotFeatures K)
  num_lhs : Nat
  num_rhs : Nat
  m_width : K
  m_ARD_type : EARDKernelType
  m_weights : SGMatrix K
  kernel : Nat → Nat → K

namespace CGaussianARDFITCKernel

variable {K : Type} [Field K]

/-- Modelled from the spec: `compute_right_product(right_vec, scalar_weight)` is
inherited from `CGaussianARDKernel` and is not in the sources; it is read as the column
vector `W v`, where `W = w I` for `KT_SCALAR` (`w = m_weights[0]`), `W = diag(m_weights)`
for `KT_DIAG` and `W = m_weights` for `KT_FULL`, with `scalar_weight` left as it was
passed. The result is the product together with `scalar_weight` after the call. -/
def compute_right_product (k : CGaussianARDFITCKernel K) (right_vec : SGVector K)
    (scalar_weight : K) : Except String (SGMatrix K × K) :=
  match k.m_ARD_type with
  | .KT_SCALAR =>
    .ok ({ num_rows := right_vec.vlen, num_cols := 1,
           matrix := fun i => k.m_weights.matrix 0 * right_vec.vector i }, scalar_weight)
  | .KT_DIAG =>
    if k.m_weights.num_rows = right_vec.vlen then
      .ok ({ num_rows := right_vec.vlen, num_cols := 1,
             matrix := fun i => k.m_weights.matrix i * right_vec.vector i }, scalar_weight)
    else .error "compute_right_product: dimension mismatch"
  | .KT_FULL =>
    if k.m_weights.num_cols = right_vec.vlen then
      .ok ({ num_rows := k.m_weights.num_rows, num_cols := 1,
             matrix := fun i =>
               ∑ t in Finset.range right_vec.vlen,
                 k.m_weights.elem i t * right_vec.vector t }, scalar_weight)
    else .error "compute_right_product: dimension mismatch"

/-- The loop `for (index_t i=0; i<left_vec.vlen; i++) res(i,idx_r)*=c`, after `n` rounds. -/
def scale_loop (c : K) (idx_r : Nat) : Nat → SGMatrix K → SGMatrix K
  | 0, res => res
  | n + 1, res =>
    let res1 := scale_loop c idx_r n res
    res1.set n idx_r (res1.elem n idx_r * c)

/-- One round of the loop over `idx_r` in `get_parameter_gradient`: `res_transpose` is a
view of column `idx_r` of `res`, so what the product writes to it is stored in `res`.
`EARDKernelType` has three values, which leaves the final `SG_ERROR` branch out of reach. -/
def gradient_round (k : CGaussianARDFITCKernel K) (r : CDotFeatures K) (idx_l : Nat)
    (left_vec : SGVector K) (res : SGMatrix K) (idx_r : Nat) : Except String (SGMatrix K) := do
  let right_vec0 := r.get_computed_dot_feature_vector idx_r
  let res_transpose : SGMatrix K :=
    { num_rows := 1, num_cols := left_vec.vlen, matrix := res.get_column_vector idx_r }
  let right_vec ← linalg.add left_vec right_vec0 1 (-1)
  let scalar_weight : K := 1
  let (right, scalar_weight) ← k.compute_right_product right_vec scalar_weight
  let right_transpose : SGMatrix K :=
    { num_rows := 1, num_cols := right.num_rows, matrix := right.matrix }
  let out ←
    match k.m_ARD_type with
    | .KT_SCALAR =>
      let scalar_weight := scalar_weight * k.m_weights.matrix 0
      let weights : SGMatrix K :=
        SGMatrix.set_const { num_rows := 1, num_cols := right.num_rows, matrix := fun _ => 0 }
          scalar_weight
      linalg.matrix_product right_transpose weights res_transpose
    | .KT_DIAG =>
      let weights : SGMatrix K :=
        { num_rows := 1, num_cols := k.m_weights.num_rows, matrix := k.m_weights.matrix }
      linalg.elementwise_product right_transpose weights res_transpose
    | .KT_FULL =>
      linalg.matrix_product right_transpose k.m_weights res_transpose
  let res1 := res.store_column idx_r left_vec.vlen out.matrix
  pure (scale_loop (k.kernel idx_l idx_r * (-2) / k.m_width) idx_r left_vec.vlen res1)

/-- The loop `for (int32_t idx_r=0; idx_r<num_rhs; idx_r++)`, after `n` rounds. -/
def gradient_loop (k : CGaussianARDFITCKernel K) (r : CDotFeatures K) (idx_l : Nat)
    (left_vec : SGVector K) (res : SGMatrix K) : Nat → Except String (SGMatrix K)
  | 0 => .ok res
  | n + 1 => do
    let res1 ← gradient_loop k r idx_l left_vec res n
    gradient_round k r idx_l left_vec res1 n

/-- The method `get_parameter_gradient(param, index)`; `name` is `param->m_name`, and
`base` is `CGaussianARDKernel::get_parameter_gradient`, which is not in the sources.
The memory of the new matrix `res` is read as zeros; every cell is written by the loop. -/
def get_parameter_gradient (k : CGaussianARDFITCKernel K)
    (base : String → Int → Except String (SGMatrix K)) (name : String) (index : Int) :
    Except String (SGMatrix K) :=
  if name = "latent_features" then
    match k.lhs, k.rhs with
    | some l, some r =>
      if 0 ≤ index ∧ index < (k.num_lhs : Int) then
        let idx_l := index.toNat
        let left_vec := l.get_computed_dot_feature_vector idx_l
        let res : SGMatrix K :=
          { num_rows := left_vec.vlen, num_cols := k.num_rhs, matrix := fun _ => 0 }
        gradient_loop k r idx_l left_vec res k.num_rhs
      else .error ""
    | _, _ => .error "Features not set!\n"
  else base name index

end CGaussianARDFITCKernel

/-! ## Reference-counted kernel objects and `obtain_from_generic` -/

/-- Modelled from the spec: the enumeration `EKernelType` of runtime type tags is not in
the sources; it has the tag `K_GAUSSIANARDFITC` and the tags of the other kernels. -/
inductive EKernelType where
  | K_GAUSSIANARDFITC
  | K_OTHER (tag : Nat)
  deriving DecidableEq, Repr

/-- A kernel object as `obtain_from_generic` sees it through a `CKernel*`: the type tag
its class reports, its reference count, and the rest of its state. -/
structure CKernel (σ : Type) where
  kernel_type : EKernelType
  ref_count : Nat
  state : σ

/-- The virtual method `get_kernel_type()`. -/
def CKernel.get_kernel_type {σ : Type} (k : CKernel σ) : EKernelType :=
  k.kernel_type

/-- An address of an object (a non-null pointer value). -/
abbrev Address := Nat

/-- The object store: the kernel object living at each address. -/
abbrev Store (σ : Type) := Address → CKernel σ

/-- Modelled from the spec: the macro `SG_REF(x)` is not in the sources; in the manual
reference-counted object model it adds one reference to the object `x` points to. -/
def SG_REF {σ : Type} (mem : Store σ) (x : Address) : Store σ :=
  Function.update mem x { mem x with ref_count := (mem x).ref_count + 1 }

/-- The static method `CGaussianARDFITCKernel::obtain_from_generic(kernel)`: the value
returned or the error raised, and the object store it leaves behind. -/
def obtain_from_generic {σ : Type} (kernel : Address) (mem : Store σ) :
    Except String Address × Store σ :=
  if (mem kernel).get_kernel_type ≠ EKernelType.K_GAUSSIANARDFITC then
    (.error "Provided kernel is not of type CGaussianARDFITCKernel!\n", mem)
  else
    let mem1 := SG_REF mem kernel
    (.ok kernel, mem1)

/-! ## `CFirstOrderMinimizer` -/

/-- The state of a `CFirstOrderMinimizer`: the pointer `m_fun` to the cost function,
`none` for `NULL`. -/
structure CFirstOrderMinimizer where
  m_fun : Option Address
  deriving DecidableEq, Repr

namespace CFirstOrderMinimizer

/-- The private method `init()`. -/
def init (self : CFirstOrderMinimizer) : CFirstOrderMinimizer :=
  { self with m_fun := none }

/-- The method `set_cost_function(fun)`. -/
def set_cost_function (self : CFirstOrderMinimizer) (cost : Option Address) :
    CFirstOrderMinimizer :=
  { self with m_fun := cost }

/-- The default constructor, run on the raw memory `raw` of the new object. -/
def construct (raw : CFirstOrderMinimizer) : CFirstOrderMinimizer :=
  init raw

/-- The constructor `CFirstOrderMinimizer(fun)`, run on the raw memory `raw`. -/
def construct_with (raw : CFirstOrderMinimizer) (cost : Option Address) :
    CFirstOrderMinimizer :=
  set_cost_function (init raw) cost

end CFirstOrderMinimizer

/-! ## `CNeuralNetwork` -/

/-- Modelled from the spec: the class `CNeuralLayer` is not in the sources; a layer
reports its number of neurons and its number of parameters. -/
structure CNeuralLayer where
  num_neurons : Int
  num_parameters : Nat
  deriving DecidableEq, Repr

/-- The method `get_num_neurons()` of a layer. -/
def CNeuralLayer.get_num_neurons (l : CNeuralLayer) : Int := l.num_neurons

/-- The method `get_num_parameters()` of a layer. -/
def CNeuralLayer.get_num_parameters (l : CNeuralLayer) : Nat := l.num_parameters

/-- Modelled from the spec: the class `CDynamicObjectArray` is not in the sources; it
holds its elements in order. -/
structure CDynamicObjectArray where
  elements : List CNeuralLayer
  deriving DecidableEq, Repr

/-- Modelled from the spec: `CDynamicObjectArray::get_num_elements()`. -/
def CDynamicObjectArray.get_num_elements (a : CDynamicObjectArray) : Int :=
  a.elements.length

/-- Modelled from the spec: `CDynamicObjectArray::element(i)` returns the element at
position `i` with one more reference, and no object for an `i` outside the array. -/
def CDynamicObjectArray.element (a : CDynamicObjectArray) (i : Int) : Option CNeuralLayer :=
  if 0 ≤ i then a.elements.get? i.toNat else none

/-- A pointer into an array: the array, and the position in it the pointer designates. -/
structure Pointer (α : Type) where
  block : SGVector α
  index : Int

/-- Pointer arithmetic `p + k`. -/
def Pointer.add {α : Type} (p : Pointer α) (k : Int) : Pointer α :=
  { p with index := p.index + k }

/-- The member `vector` of an `SGVector`, the pointer to its first cell. -/
def SGVector.data {α : Type} (v : SGVector α) : Pointer α :=
  { block := v, index := 0 }

/-- The fields of `CNeuralNetwork` that lay out the layers and their parameters. -/
structure CNeuralNetwork where
  m_num_inputs : Int
  m_num_layers : Int
  m_layers : CDynamicObjectArray
  m_total_num_parameters : Int
  m_params : SGVector Rat
  m_param_gradients : SGVector Rat
  m_param_regularizable : SGVector Bool
  m_index_offsets : SGVector Int

namespace CNeuralNetwork

/-- The method `get_num_parameters()`. -/
def get_num_parameters (net : CNeuralNetwork) : Int := net.m_total_num_parameters

/-- The method `get_parameters()`. -/
def get_parameters (net : CNeuralNetwork) : Pointer Rat := net.m_params.data

/-- The method `get_parameter_gradients()`. -/
def get_parameter_gradients (net : CNeuralNetwork) : Pointer Rat := net.m_param_gradients.data

/-- The method `get_num_inputs()`. -/
def get_num_inputs (net : CNeuralNetwork) : Int := net.m_num_inputs

/-- The private method `get_layer(i)`: the reference `element(i)` adds is given back by
`SG_UNREF` before the pointer is returned. -/
def get_layer (net : CNeuralNetwork) (i : Int) : Option CNeuralLayer :=
  net.m_layers.element i

/-- The method `get_num_outputs()`; `none` when `get_layer` yields no layer to call
`get_num_neurons()` on. -/
def get_num_outputs (net : CNeuralNetwork) : Option Int :=
  (net.get_layer (net.m_num_layers - 1)).map CNeuralLayer.get_num_neurons

/-- The private method `get_layer_params(i)`. -/
def get_layer_params (net : CNeuralNetwork) (i : Nat) : Pointer Rat :=
  net.m_params.data.add (net.m_index_offsets.vector i)

/-- The private method `get_layer_param_gradients(i)`. -/
def get_layer_param_gradients (net : CNeuralNetwork) (i : Nat) : Pointer Rat :=
  net.m_param_gradients.data.add (net.m_index_offsets.vector i)

/-- The private method `get_layer_param_regularizable(i)`. -/
def get_layer_param_regularizable (net : CNeuralNetwork) (i : Nat) : Pointer Bool :=
  net.m_param_regularizable.data.add (net.m_index_offsets.vector i)

/-- Offsets of the blocks of `layers` laid out one after the other from `start`. -/
def block_offsets (start : Nat) : List CNeuralLayer → List Nat
  | [] => []
  | l :: ls => start :: block_offsets (start + l.get_num_parameters) ls

/-- Total number of parameters of `layers`. -/
def total_parameters (layers : List CNeuralLayer) : Nat :=
  (layers.map CNeuralLayer.get_num_parameters).sum

/-- Modelled from the spec: `CNeuralNetwork::initialize(num_inputs, layers)` is declared in
`NeuralNetwork.h` and defined in `NeuralNetwork.cpp`, which is not in the sources. Following
the class documentation, the parameters (and parameter gradients) of all the layers are
stored in a single array, layer `i`'s parameters at `m_params + m_index_offsets[i]`: the
blocks of the layers follow one another in layer order, and the arrays have as many cells
as there are parameters. -/
def initialise (net : CNeuralNetwork) (num_inputs : Int) (layers : CDynamicObjectArray) :
    CNeuralNetwork :=
  let total := total_parameters layers.elements
  { net with
    m_num_inputs := num_inputs
    m_layers := layers
    m_num_layers := layers.get_num_elements
    m_index_offsets :=
      { vlen := layers.elements.length,
        vector := fun i => ((block_offsets 0 layers.elements).getD i 0 : Nat) }
    m_total_num_parameters := total
    m_params := { vlen := total, vector := fun _ => 0 }
    m_param_gradients := { vlen := total, vector := fun _ => 0 }
    m_param_regularizable := { vlen := total, vector := fun _ => true } }

end CNeuralNetwork

/-- The public training parameters of `CNeuralNetwork` and its member `m_batch_size`,
as `NeuralNetwork.h` declares them. -/
structure CNeuralNetworkParameters where
  l2_coefficient : Rat
  mini_batch_size : Int
  max_num_epochs : Int
  gd_learning_rate : Rat
  gd_momentum : Rat
  m_batch_size : Int
  deriving DecidableEq, Repr

/-- Modelled from the spec: the constructor `CNeuralNetwork::CNeuralNetwork()` and the
`init()` it calls are declared in `NeuralNetwork.h` and defined in `NeuralNetwork.cpp`,
which is not in the sources. Following the documentation of the members, construction
gives each member the default value its comment names; `mini_batch_size`, whose comment
names none, is left as the raw memory `raw` of the new object has it. -/
def CNeuralNetworkParameters.construct (raw : CNeuralNetworkParameters) :
    CNeuralNetworkParameters :=
  { raw with
    l2_coefficient := 0
    max_num_epochs := 100
    gd_learning_rate := 1 / 10
    gd_momentum := 9 / 10
    m_batch_size := 1 }

/-! ## `CBaggingMachine` under the mocks of `BaggingMachine_unittest.cc` -/

/-- The calls the mock objects of the test `mock_train` can receive: `clone()` and
`train_machine()` on the mock machine, `get_num_vectors()` on the mock features. -/
inductive MockCall where
  | clone
  | get_num_vectors
  | train_machine
  deriving DecidableEq, Repr

/-- The expectations the test `mock_train` sets inside `InSequence s`: the loop
`for (int i = 0; i < num_bags; i++)`, after `n` rounds, has queued one `clone()` and then
one `get_num_vectors()` per round, each with `Times(1)`. -/
def mock_train_expectations : Nat → List MockCall
  | 0 => []
  | n + 1 => mock_train_expectations n ++ [MockCall.clone, MockCall.get_num_vectors]

/-- Modelled from the spec: gmock is not in the sources. For expectations queued in one
sequence with `Times(1)` each, a call on a method that carries expectations (`watched`)
has to be the next one of the queue and uses it up; calls on the other methods of a
`NiceMock` pass; when the mocks are verified the queue has to be empty. -/
def in_sequence_verdict (watched : MockCall → Bool) :
    List MockCall → List MockCall → Bool
  | queue, [] => queue.isEmpty
  | queue, c :: calls =>
    if watched c then
      match queue with
      | [] => false
      | e :: rest => decide (c = e) && in_sequence_verdict watched rest calls
    else in_sequence_verdict watched queue calls

/-- The verdict of the test `mock_train` with `num_bags` bags on the calls `train()` made. -/
def mock_train_verdict (num_bags : Nat) (calls : List MockCall) : Bool :=
  in_sequence_verdict (fun c => decide (c ∈ mock_train_expectations num_bags))
    (mock_train_expectations num_bags) calls

/-- Modelled from the spec: the class `CBaggingMachine` is not in the sources; of its
state the model keeps what the test sets: the number of bags, the bag size, and the number
of vectors the features report. -/
structure CBaggingMachine where
  m_num_bags : Nat
  m_bag_size : Nat
  num_vectors : Nat
  deriving DecidableEq, Repr

namespace CBaggingMachine

/-- Modelled from the spec: `CBaggingMachine::train()` is not in the sources. For one bag
it clones the base machine, asks the features for their number of vectors to draw the
`m_bag_size` indices of the bag, and trains the clone, which succeeds. The result is the
list of calls this makes on the mocks. -/
def train_bag (_bm : CBaggingMachine) : List MockCall :=
  [MockCall.clone, MockCall.get_num_vectors, MockCall.train_machine]

/-- Modelled from the spec: the loop over the bags in `CBaggingMachine::train()`, which is
not in the sources; the calls of the first `n` bags, bag after bag. -/
def train_bags (bm : CBaggingMachine) : Nat → List MockCall
  | 0 => []
  | n + 1 => train_bags bm n ++ train_bag bm

/-- Modelled from the spec: `CBaggingMachine::train()`, one round per bag; the result is
the list of calls made on the mocks, in order. -/
def train (bm : CBaggingMachine) : List MockCall :=
  train_bags bm bm.m_num_bags

end CBaggingMachine

/-- The bagging machine of the test `mock_train`: 10 bags of size 20 on 100 vectors. -/
def example_bagging_machine : CBaggingMachine :=
  { m_num_bags := 10, m_bag_size := 20, num_vectors := 100 }

/-! ## `CLinearTimeMMD` under the tests of `LinearTimeMMD_unittest.cc` -/

/-- The statistic types the tests select with `set_statistic_type`. -/
inductive EStatisticType where
  | S_UNBIASED
  | S_INCOMPLETE
  deriving DecidableEq, Repr

/-- The null variance estimation methods the tests select with `set_null_var_est_method`. -/
inductive ENullVarEstMethod where
  | WITHIN_BURST_PERMUTATION
  | WITHIN_BLOCK_DIRECT
  | NO_PERMUTATION_DEPRECATED
  deriving DecidableEq, Repr

/-- Modelled from the spec: the class `CGaussianKernel` is not in the sources; with the
width `2 sigma^2` the tests pass ("shoguns kernel width is different") its value on two
vectors of dimension `d` is `exp(-|x - y|^2 / width)`. The exponential is a parameter. -/
def gaussian_kernel {K : Type} [Field K] (exp : K → K) (width : K) (d : Nat)
    (x y : Nat → K) : K :=
  exp (-(∑ r in Finset.range d, (x r - y r) ^ 2) / width)

/-- Modelled from the spec: the class `CLinearTimeMMD` is not in the sources; the model
keeps the configuration the tests set up: the kernel (for a `CCombinedKernel` its
sub-kernels in order, else the one kernel), the two streams (sample `t` of each), the
numbers `m` and `n` of samples to take from them, the blocksize, the statistic type and
the null variance estimation method. -/
structure CLinearTimeMMD (K X : Type) where
  m_kernel : List (X → X → K)
  m_streaming_p : Nat → X
  m_streaming_q : Nat → X
  m_m : Nat
  m_n : Nat
  m_blocksize : Nat
  m_statistic_type : EStatisticType
  m_null_var_est_method : ENullVarEstMethod

namespace CLinearTimeMMD

variable {K X : Type} [Field K]

/-- The number of sub-kernels. -/
def num_kernels (mmd : CLinearTimeMMD K X) : Nat :=
  mmd.m_kernel.length

/-- Sub-kernel `i`. -/
def subkernel (mmd : CLinearTimeMMD K X) (i : Nat) : X → X → K :=
  mmd.m_kernel.getD i (fun _ _ => 0)

/-- Modelled from the spec: the kernel as a whole; a combined kernel (`CCombinedKernel`,
not in the sources) adds up its sub-kernels. -/
def whole_kernel (mmd : CLinearTimeMMD K X) : X → X → K :=
  fun x y => (mmd.m_kernel.map (fun k => k x y)).sum

/-- Modelled from the spec: the samples a block takes from `p`; with blocksize 5, `m = 8`
and `n = 12` the test comment says "2 from p and 3 from q per block". -/
def block_p (mmd : CLinearTimeMMD K X) : Nat :=
  mmd.m_blocksize * mmd.m_m / (mmd.m_m + mmd.m_n)

/-- Modelled from the spec: the samples a block takes from `q`. -/
def block_q (mmd : CLinearTimeMMD K X) : Nat :=
  mmd.m_blocksize * mmd.m_n / (mmd.m_m + mmd.m_n)

/-- Modelled from the spec: the number of blocks the `m + n` samples make. -/
def num_blocks (mmd : CLinearTimeMMD K X) : Nat :=
  (mmd.m_m + mmd.m_n) / mmd.m_blocksize

/-- Modelled from the spec: the unbiased estimate of the squared MMD on `x 0 .. x (bx-1)` and
`y 0 .. y (by-1)`: the mean of `k(x_i, x_j)` over `i != j`, plus the mean of `k(y_i, y_j)`
over `i != j`, minus twice the mean of `k(x_i, y_j)` over all `i, j`. -/
def unbiased_estimate (k : X → X → K) (x y : Nat → X) (bx bq : Nat) : K :=
  (∑ i in Finset.range bx, ∑ j in Finset.range bx, if i = j then 0 else k (x i) (x j)) /
      ((bx : K) * ((bx : K) - 1)) +
    (∑ i in Finset.range bq, ∑ j in Finset.range bq, if i = j then 0 else k (y i) (y j)) /
      ((bq : K) * ((bq : K) - 1)) -
    2 * (∑ i in Finset.range bx, ∑ j in Finset.range bq, k (x i) (y j)) /
      ((bx : K) * (bq : K))

/-- Modelled from the spec: the incomplete estimate of the squared MMD on `b` samples of
each stream: the mean over `i != j` of `k(x_i, x_j) + k(y_i, y_j) - k(x_i, y_j) - k(x_j, y_i)`
(the expected value of the test `statistic_single_kernel_fixed_incomplete` agrees with it). -/
def incomplete_estimate (k : X → X → K) (x y : Nat → X) (b : Nat) : K :=
  (∑ i in Finset.range b, ∑ j in Finset.range b,
      if i = j then 0 else k (x i) (x j) + k (y i) (y j) - k (x i) (y j) - k (x j) (y i)) /
    ((b : K) * ((b : K) - 1))

/-- Modelled from the spec: the estimate of the squared MMD within block `t` for the
kernel `k`, by the statistic type. -/
def block_estimate (mmd : CLinearTimeMMD K X) (k : X → X → K) (t : Nat) : K :=
  match mmd.m_statistic_type with
  | .S_UNBIASED =>
    unbiased_estimate k (fun i => mmd.m_streaming_p (t * mmd.block_p + i))
      (fun j => mmd.m_streaming_q (t * mmd.block_q + j)) mmd.block_p mmd.block_q
  | .S_INCOMPLETE =>
    incomplete_estimate k (fun i => mmd.m_streaming_p (t * mmd.block_p + i))
      (fun j => mmd.m_streaming_q (t * mmd.block_q + j)) mmd.block_p

/-- Modelled from the spec: the average over the blocks of the within-block estimates for
the kernel `k`. -/
def block_average (mmd : CLinearTimeMMD K X) (k : X → X → K) : K :=
  (∑ t in Finset.range mmd.num_blocks, mmd.block_estimate k t) / (mmd.num_blocks : K)

/-- Modelled from the spec: the factor of the statistic, `sqrt(m n / (m + n))`, which the
expected values of the tests fix (1 for `m = n = 2`, 2 for `m = n = 8`, `sqrt(96/20)` for
`m = 8` and `n = 12`); the square root is a parameter. -/
def compute_stat_est_multiplier (sqrt : K → K) (mmd : CLinearTimeMMD K X) : K :=
  sqrt (((mmd.m_m : K) * (mmd.m_n : K)) / ((mmd.m_m : K) + (mmd.m_n : K)))

/-- Modelled from the spec: the statistic for the kernel `k` in closed form: the average
over the blocks of the within-block estimate, times the factor
`compute_stat_est_multiplier`. The methods below do not call it: they keep running values
while the blocks stream in; that they end in this value is proved of them, and the
expected values of the tests are checked against it. -/
def statistic_for (sqrt : K → K) (mmd : CLinearTimeMMD K X) (k : X → X → K) : K :=
  mmd.compute_stat_est_multiplier sqrt * mmd.block_average k

/-- Modelled from the spec: the values `compute_statistic_and_variance` keeps for one kernel
while the blocks stream in: the running statistic, the running variance term (a sum of
squared deviations, or a mean of direct terms), the running mean of the terms under the
null hypothesis, and the term counter. -/
structure RunningEstimate (K : Type) where
  statistic : K
  variance : K
  null_mean : K
  term_counter : Nat

/-- Modelled from the spec: one block more in `compute_statistic_and_variance` (not in the
sources), `current` being the within-block estimate and `null` the term of the block
under the null hypothesis. The null variance estimation method selects the code path:
`NO_PERMUTATION_DEPRECATED` runs D. Knuth's online mean and variance on the within-block
estimates themselves; `WITHIN_BLOCK_DIRECT` keeps a running mean of the estimates and a
running mean of the variance terms computed directly within the block;
`WITHIN_BURST_PERMUTATION` keeps a running mean of the estimates on the samples as
streamed and runs the online variance on the estimates on the permuted samples. -/
def update_estimate (mmd : CLinearTimeMMD K X) (current null : K)
    (e : RunningEstimate K) : RunningEstimate K :=
  match mmd.m_null_var_est_method with
  | .NO_PERMUTATION_DEPRECATED =>
    let delta := current - e.statistic
    let statistic := e.statistic + delta / (e.term_counter : K)
    { statistic := statistic,
      variance := e.variance + delta * (current - statistic),
      null_mean := e.null_mean,
      term_counter := e.term_counter + 1 }
  | .WITHIN_BLOCK_DIRECT =>
    { statistic := e.statistic + (current - e.statistic) / (e.term_counter : K),
      variance := e.variance + (null - e.variance) / (e.term_counter : K),
      null_mean := e.null_mean,
      term_counter := e.term_counter + 1 }
  | .WITHIN_BURST_PERMUTATION =>
    let delta := null - e.null_mean
    let null_mean := e.null_mean + delta / (e.term_counter : K)
    { statistic := e.statistic + (current - e.statistic) / (e.term_counter : K),
      variance := e.variance + delta * (null - null_mean),
      null_mean := null_mean,
      term_counter := e.term_counter + 1 }

/-- Modelled from the spec: the loop of `compute_statistic_and_variance` over the first `n`
blocks for the kernel `k`; the term counter starts at 1. The term of block `t` under the
null hypothesis (computed directly, or on randomly permuted samples) is the parameter
`null_term k t`. -/
def running_estimate (mmd : CLinearTimeMMD K X) (null_term : (X → X → K) → Nat → K)
    (k : X → X → K) : Nat → RunningEstimate K
  | 0 => { statistic := 0, variance := 0, null_mean := 0, term_counter := 1 }
  | n + 1 =>
    mmd.update_estimate (mmd.block_estimate k n) (null_term k n)
      (running_estimate mmd null_term k n)

/-- Modelled from the spec: the variance estimate at the end of the loop: the running mean
of the direct terms, or the sum of squared deviations over the number of terms
(`term_counter - 1`), times the factor `var_est_multiplier`. -/
def variance_estimate (mmd : CLinearTimeMMD K X) (var_est_multiplier : K)
    (e : RunningEstimate K) : K :=
  match mmd.m_null_var_est_method with
  | .WITHIN_BLOCK_DIRECT => var_est_multiplier * e.variance
  | .NO_PERMUTATION_DEPRECATED =>
    var_est_multiplier * (e.variance / ((e.term_counter : K) - 1))
  | .WITHIN_BURST_PERMUTATION =>
    var_est_multiplier * (e.variance / ((e.term_counter : K) - 1))

/-- Modelled from the spec: `compute_statistic_and_variance(statistic, variance,
multiple_kernels)` is not in the sources. With the flag set it runs the loop over the
blocks for every sub-kernel of the combined kernel, else for the kernel as a whole, and
writes the running statistics times `compute_stat_est_multiplier` and the variance
estimates. The factor of the variance is the parameter `var_est_multiplier` (4 in the test
`statistic_and_variance_multiple_kernels_fixed_DEPRECATED`). -/
def compute_statistic_and_variance (sqrt : K → K) (mmd : CLinearTimeMMD K X)
    (null_term : (X → X → K) → Nat → K) (var_est_multiplier : K)
    (multiple_kernels : Bool) : SGVector K × SGVector K :=
  if multiple_kernels then
    ({ vlen := mmd.num_kernels,
       vector := fun i => mmd.compute_stat_est_multiplier sqrt *
         (mmd.running_estimate null_term (mmd.subkernel i) mmd.num_blocks).statistic },
     { vlen := mmd.num_kernels,
       vector := fun i => mmd.variance_estimate var_est_multiplier
         (mmd.running_estimate null_term (mmd.subkernel i) mmd.num_blocks) })
  else
    ({ vlen := 1,
       vector := fun _ => mmd.compute_stat_est_multiplier sqrt *
         (mmd.running_estimate null_term mmd.whole_kernel mmd.num_blocks).statistic },
     { vlen := 1,
       vector := fun _ => mmd.variance_estimate var_est_multiplier
         (mmd.running_estimate null_term mmd.whole_kernel mmd.num_blocks) })

/-- Modelled from the spec: `compute_statistic(multiple_kernels)`: the statistics
`compute_statistic_and_variance` writes, the variances being dropped. -/
def compute_statistic_multiple (sqrt : K → K) (mmd : CLinearTimeMMD K X)
    (null_term : (X → X → K) → Nat → K) (var_est_multiplier : K)
    (multiple_kernels : Bool) : SGVector K :=
  (mmd.compute_statistic_and_variance sqrt null_term var_est_multiplier multiple_kernels).1

/-- Modelled from the spec: `compute_statistic()`, the one statistic for the kernel as a
whole. -/
def compute_statistic (sqrt : K → K) (mmd : CLinearTimeMMD K X)
    (null_term : (X → X → K) → Nat → K) (var_est_multiplier : K) : K :=
  (mmd.compute_statistic_multiple sqrt null_term var_est_multiplier false).vector 0

/-- Modelled from the spec: the loop of `compute_statistic_and_Q` over the first `n` blocks
for the kernel `k`: the running mean of the within-block estimates and its term counter,
which starts at 1. -/
def running_statistic (mmd : CLinearTimeMMD K X) (k : X → X → K) : Nat → K × Nat
  | 0 => (0, 1)
  | n + 1 =>
    let r := running_statistic mmd k n
    (r.1 + (mmd.block_estimate k n - r.1) / (r.2 : K), r.2 + 1)

/-- The loop `for (j = 0; j <= i; ++j) Q(i, j) = ...` over the first `n` columns of row
`i`, the entry for the sub-kernels `i` and `j` being `entry i j`. -/
def fill_row (entry : Nat → Nat → K) (i : Nat) : Nat → SGMatrix K → SGMatrix K
  | 0, Q => Q
  | n + 1, Q => (fill_row entry i n Q).set i n (entry i n)

/-- The loop over the first `n` rows that fills the lower half of `Q`, diagonal included. -/
def fill_lower (entry : Nat → Nat → K) : Nat → SGMatrix K → SGMatrix K
  | 0, Q => Q
  | n + 1, Q => fill_row entry n (n + 1) (fill_lower entry n Q)

/-- The loop `for (j = 0; j < i; ++j) Q(j, i) = Q(i, j)` over the first `n` columns of
row `i`. -/
def mirror_row (i : Nat) : Nat → SGMatrix K → SGMatrix K
  | 0, Q => Q
  | n + 1, Q =>
    let Q1 := mirror_row i n Q
    Q1.set n i (Q1.elem i n)

/-- The loop over the first `n` rows that copies the lower half of `Q` to the upper half. -/
def mirror_upper : Nat → SGMatrix K → SGMatrix K
  | 0, Q => Q
  | n + 1, Q => mirror_row n n (mirror_upper n Q)

/-- Modelled from the spec: `compute_statistic_and_Q(statistic, Q)` is not in the sources.
It runs its own loop over the blocks for every sub-kernel and writes the running means
times `compute_stat_est_multiplier`, and a matrix `Q` with one row and one column per
sub-kernel; as `Q` is symmetric, the entry for a pair of sub-kernels is computed once, for
`j <= i`, and copied to the other half. How an entry is estimated depends on the null
variance estimation method (and, with permutations, on the random numbers drawn); it is
the parameter `entry`. -/
def compute_statistic_and_Q (sqrt : K → K) (mmd : CLinearTimeMMD K X)
    (entry : ENullVarEstMethod → Nat → Nat → K) : SGVector K × SGMatrix K :=
  let statistic : SGVector K :=
    { vlen := mmd.num_kernels,
      vector := fun i => mmd.compute_stat_est_multiplier sqrt *
        (mmd.running_statistic (mmd.subkernel i) mmd.num_blocks).1 }
  let Q0 : SGMatrix K :=
    { num_rows := mmd.num_kernels, num_cols := mmd.num_kernels, matrix := fun _ => 0 }
  let Q1 := fill_lower (entry mmd.m_null_var_est_method) mmd.num_kernels Q0
  (statistic, mirror_upper mmd.num_kernels Q1)

end CLinearTimeMMD

/-- The streams of the tests: the data matrix is filled with `0, 1, 2, ...` column by
column, `d` rows high; sample `c` of the stream that starts at column `first` is column
`first + c`, divided by `scale`. -/
def test_stream {K : Type} [Field K] (d first : Nat) (scale : K) : Nat → Nat → K :=
  fun c r => ((d * (first + c) + r : Nat) : K) / scale

/-- The set-up of the test `statistic_single_kernel_fixed_unbiased`: `m = 2`, `d = 3`,
data `0..11`, a Gaussian kernel of width `2 sigma^2 = 8`, the default blocksize 4. -/
def test_single_kernel_fixed {K : Type} [Field K] (exp : K → K)
    (type : EStatisticType) : CLinearTimeMMD K (Nat → K) :=
  { m_kernel := [gaussian_kernel exp 8 3],
    m_streaming_p := test_stream 3 0 1, m_streaming_q := test_stream 3 2 1,
    m_m := 2, m_n := 2, m_blocksize := 4,
    m_statistic_type := type,
    m_null_var_est_method := .WITHIN_BURST_PERMUTATION }

/-- The set-up of the tests `statistic_and_Q_fixed` and
`statistic_and_variance_multiple_kernels_fixed_*`: `m = 8`, `d = 3`, data `0..47`
divided by the largest entry of each half (23 and 47), a combined kernel of Gaussian
kernels with `sigma = 2^5, 2^6, 2^7` (widths 2048, 8192, 32768), the default blocksize 4. -/
def test_multiple_kernels_fixed {K : Type} [Field K] (exp : K → K)
    (method : ENullVarEstMethod) : CLinearTimeMMD K (Nat → K) :=
  { m_kernel := [gaussian_kernel exp 2048 3, gaussian_kernel exp 8192 3,
      gaussian_kernel exp 32768 3],
    m_streaming_p := test_stream 3 0 23, m_streaming_q := test_stream 3 8 47,
    m_m := 8, m_n := 8, m_blocksize := 4,
    m_statistic_type := .S_UNBIASED,
    m_null_var_est_method := method }

/-- The set-up of the test
`statistic_and_variance_fixed_multiple_kernels_different_num_samples`: `m = 8`, `n = 12`,
`d = 3`, data `0..59` divided by the largest entry of each part (23 and 59), the combined
kernel of the other tests, blocksize 5, method `WITHIN_BLOCK_DIRECT`. -/
def test_different_num_samples {K : Type} [Field K] (exp : K → K) :
    CLinearTimeMMD K (Nat → K) :=
  { m_kernel := [gaussian_kernel exp 2048 3, gaussian_kernel exp 8192 3,
      gaussian_kernel exp 32768 3],
    m_streaming_p := test_stream 3 0 23, m_streaming_q := test_stream 3 8 59,
    m_m := 8, m_n := 12, m_blocksize := 5,
    m_statistic_type := .S_UNBIASED,
    m_null_var_est_method := .WITHIN_BLOCK_DIRECT }

/-! ## Concrete inputs -/

/-- One left vector `(1, 2)` in dimension two. -/
def example_lhs : CDotFeatures Rat :=
  { num_vectors := 1, dim_feature_space := 2,
    feature_vector := fun _ i => if i = 0 then 1 else 2 }

/-- One right vector `(0, 0)` in dimension two. -/
def example_rhs : CDotFeatures Rat :=
  { num_vectors := 1, dim_feature_space := 2, feature_vector := fun _ _ => 0 }

/-- A kernel of type `KT_FULL` on the example features, with weights `[[1, 3], [2, 4]]`,
width `2` and kernel value `1/2`. -/
def example_full_kernel : CGaussianARDFITCKernel Rat :=
  { lhs := some example_lhs, rhs := some example_rhs, num_lhs := 1, num_rhs := 1,
    m_width := 2, m_ARD_type := .KT_FULL,
    m_weights := { num_rows := 2, num_cols := 2, matrix := fun q => (q : Rat) + 1 },
    kernel := fun _ _ => 1 / 2 }

/-- The weights of `example_full_kernel` as a matrix. -/
def example_full_W : Matrix (Fin 2) (Fin 2) Rat :=
  fun a b => example_full_kernel.m_weights.elem a.val b.val

/-- A kernel of type `KT_SCALAR` on the example features (dimension two), with weight `3`,
width `2` and kernel value `1/2`. -/
def example_scalar_kernel : CGaussianARDFITCKernel Rat :=
  { lhs := some example_lhs, rhs := some example_rhs, num_lhs := 1, num_rhs := 1,
    m_width := 2, m_ARD_type := .KT_SCALAR,
    m_weights := { num_rows := 1, num_cols := 1, matrix := fun _ => 3 },
    kernel := fun _ _ => 1 / 2 }

/-- A kernel whose left features are not set. -/
def example_unset_kernel : CGaussianARDFITCKernel Rat :=
  { example_scalar_kernel with lhs := none }

/-- A stand-in for the base class gradient: it knows no parameter. -/
def example_base : String → Int → Except String (SGMatrix Rat) :=
  fun _ _ => .error "Can't compute derivative wrt unknown parameter"

/-- An object store with a `CGaussianARDFITCKernel` at address `0`, held once, and
kernels of other types, held twice, elsewhere. -/
def example_store : Store Nat :=
  fun a =>
    if a = 0 then { kernel_type := .K_GAUSSIANARDFITC, ref_count := 1, state := 7 }
    else { kernel_type := .K_OTHER a, ref_count := 2, state := a }

/-- A network with three layers of 4, 6 and 2 parameters; its offsets are not yet set. -/
def example_network : CNeuralNetwork :=
  { m_num_inputs := 3, m_num_layers := 3,
    m_layers := { elements := [⟨5, 4⟩, ⟨3, 6⟩, ⟨2, 2⟩] },
    m_total_num_parameters := 0,
    m_params := { vlen := 0, vector := fun _ => 0 },
    m_param_gradients := { vlen := 0, vector := fun _ => 0 },
    m_param_regularizable := { vlen := 0, vector := fun _ => false },
    m_index_offsets := { vlen := 0, vector := fun _ => 0 } }

/-! ## Lemmas on the kernel gradient -/

namespace CGaussianARDFITCKernel

variable {K : Type} [Field K]

theorem scale_loop_num_rows (c : K) (idx_r n : Nat) (M : SGMatrix K) :
    (scale_loop c idx_r n M).num_rows = M.num_rows := by
  induction n with
  | zero => rfl
  | succ n ih => simp [scale_loop, SGMatrix.set, ih]

theorem scale_loop_num_cols (c : K) (idx_r n : Nat) (M : SGMatrix K) :
    (scale_loop c idx_r n M).num_cols = M.num_cols := by
  induction n with
  | zero => rfl
  | succ n ih => simp [scale_loop, SGMatrix.set, ih]

theorem scale_loop_matrix (c : K) (idx_r n : Nat) (M : SGMatrix K) (q : Nat) :
    (scale_loop c idx_r n M).matrix q =
      if idx_r * M.num_rows ≤ q ∧ q < idx_r * M.num_rows + n then M.matrix q * c
      else M.matrix q := by
  induction n with
  | zero =>
    have hno : ¬ (idx_r * M.num_rows ≤ q ∧ q < idx_r * M.num_rows + 0) := by omega
    rw [if_neg hno]
    rfl
  | succ n ih =>
    simp only [scale_loop, SGMatrix.set, SGMatrix.elem, scale_loop_num_rows]
    by_cases hq : q = idx_r * M.num_rows + n
    · subst hq
      rw [Function.update_same, ih]
      simp
    · rw [Function.update_noteq hq, ih]
      have hiff : (idx_r * M.num_rows ≤ q ∧ q < idx_r * M.num_rows + n) ↔
          (idx_r * M.num_rows ≤ q ∧ q < idx_r * M.num_rows + (n + 1)) := by
        constructor
        · rintro ⟨h1, h2⟩; exact ⟨h1, by omega⟩
        · rintro ⟨h1, h2⟩; exact ⟨h1, by omega⟩
      simp only [hiff]

theorem except_ok_bind {ε α β : Type} (a : α) (f : α → Except ε β) :
    (Except.ok a >>= f) = f a := rfl

theorem gradient_round_diag (k : CGaussianARDFITCKernel K) (r : CDotFeatures K)
    (idx_l : Nat) (left_vec : SGVector K) (res : SGMatrix K) (idx_r d : Nat)
    (hty : k.m_ARD_type = .KT_DIAG) (hw : k.m_weights.num_rows = d)
    (hl : left_vec.vlen = d) (hr : r.dim_feature_space = d) (hres : res.num_rows = d) :
    ∃ res1, gradient_round k r idx_l left_vec res idx_r = .ok res1 ∧
      res1.num_rows = res.num_rows ∧ res1.num_cols = res.num_cols ∧
      ∀ q, res1.matrix q =
        if idx_r * d ≤ q ∧ q < idx_r * d + d then
          (k.m_weights.matrix (q - idx_r * d) *
              (left_vec.vector (q - idx_r * d) - r.feature_vector idx_r (q - idx_r * d)) *
            k.m_weights.matrix (q - idx_r * d)) *
            (k.kernel idx_l idx_r * (-2) / k.m_width)
        else res.matrix q := by
  subst hl
  simp only [gradient_round, linalg.add, CDotFeatures.get_computed_dot_feature_vector, hr,
    if_true, except_ok_bind, compute_right_product, hty, hw, linalg.elementwise_product,
    and_self, pure, Except.pure]
  refine ⟨_, rfl, ?_, ?_, ?_⟩
  · simp [scale_loop_num_rows, SGMatrix.store_column]
  · simp [scale_loop_num_cols, SGMatrix.store_column]
  · intro q
    rw [scale_loop_matrix]
    simp only [SGMatrix.store_column, hres]
    by_cases h1 : idx_r * left_vec.vlen ≤ q ∧ q < idx_r * left_vec.vlen + left_vec.vlen
    · have h2 : q - idx_r * left_vec.vlen < 1 * left_vec.vlen := by omega
      simp only [if_pos h1, if_pos h2]
      ring
    · simp only [if_neg h1]

theorem gradient_round_full (k : CGaussianARDFITCKernel K) (r : CDotFeatures K)
    (idx_l : Nat) (left_vec : SGVector K) (res : SGMatrix K) (idx_r d : Nat)
    (hty : k.m_ARD_type = .KT_FULL) (hw : k.m_weights.num_cols = d)
    (hl : left_vec.vlen = d) (hr : r.dim_feature_space = d) (hres : res.num_rows = d) :
    ∃ res1, gradient_round k r idx_l left_vec res idx_r = .ok res1 ∧
      res1.num_rows = res.num_rows ∧ res1.num_cols = res.num_cols ∧
      ∀ q, res1.matrix q =
        if idx_r * d ≤ q ∧ q < idx_r * d + d then
          (∑ t in Finset.range k.m_weights.num_rows,
              (∑ s in Finset.range d, k.m_weights.elem t s *
                (left_vec.vector s - r.feature_vector idx_r s)) *
              k.m_weights.elem t (q - idx_r * d)) *
            (k.kernel idx_l idx_r * (-2) / k.m_width)
        else res.matrix q := by
  subst hl
  simp only [gradient_round, linalg.add, CDotFeatures.get_computed_dot_feature_vector, hr,
    if_true, except_ok_bind, compute_right_product, hty, hw, linalg.matrix_product,
    and_self, pure, Except.pure]
  refine ⟨_, rfl, ?_, ?_, ?_⟩
  · simp [scale_loop_num_rows, SGMatrix.store_column]
  · simp [scale_loop_num_cols, SGMatrix.store_column]
  · intro q
    rw [scale_loop_matrix]
    simp only [SGMatrix.store_column, hres]
    by_cases h1 : idx_r * left_vec.vlen ≤ q ∧ q < idx_r * left_vec.vlen + left_vec.vlen
    · have h2 : q - idx_r * left_vec.vlen < left_vec.vlen := by omega
      simp only [if_pos h1, if_pos h2, SGMatrix.elem, Nat.mod_one, Nat.div_one, mul_one,
        add_zero, one_mul, sub_eq_add_neg, neg_mul]
    · simp only [if_neg h1]

theorem gradient_loop_of_round (k : CGaussianARDFITCKernel K) (r : CDotFeatures K)
    (idx_l : Nat) (left_vec : SGVector K) (res0 : SGMatrix K) (d : Nat) (G : Nat → Nat → K)
    (hres : res0.num_rows = d)
    (hround : ∀ (res : SGMatrix K) (idx_r : Nat), res.num_rows = d →
      ∃ res1, gradient_round k r idx_l left_vec res idx_r = .ok res1 ∧
        res1.num_rows = res.num_rows ∧ res1.num_cols = res.num_cols ∧
        ∀ q, res1.matrix q =
          if idx_r * d ≤ q ∧ q < idx_r * d + d then G idx_r (q - idx_r * d) else res.matrix q)
    (n : Nat) :
    ∃ resn, gradient_loop k r idx_l left_vec res0 n = .ok resn ∧
      resn.num_rows = d ∧ resn.num_cols = res0.num_cols ∧
      ∀ c, c < n → ∀ i, i < d → resn.elem i c = G c i := by
  induction n with
  | zero => exact ⟨res0, rfl, hres, rfl, fun c hc => absurd hc (Nat.not_lt_zero c)⟩
  | succ n ih =>
    obtain ⟨resn, hloop, hrows, hcols, hval⟩ := ih
    obtain ⟨res1, hr1, hrows1, hcols1, hval1⟩ := hround resn n hrows
    refine ⟨res1, ?_, hrows1.trans hrows, hcols1.trans hcols, ?_⟩
    · simp only [gradient_loop, hloop, except_ok_bind, hr1]
    · intro c hc i hi
      have hmono : (c < n ∧ c * d + d ≤ n * d) ∨ c = n := by
        rcases Nat.lt_succ_iff_lt_or_eq.mp hc with h | h
        · left
          refine ⟨h, ?_⟩
          calc c * d + d = (c + 1) * d := by ring
            _ ≤ n * d := Nat.mul_le_mul_right d h
        · right; exact h
      simp only [SGMatrix.elem, hrows1, hrows, hval1]
      rcases hmono with ⟨hcn, h⟩ | h
      · have hno : ¬ (n * d ≤ c * d + i ∧ c * d + i < n * d + d) := by omega
        rw [if_neg hno]
        have := hval c hcn i hi
        simpa only [SGMatrix.elem, hrows] using this
      · subst h
        have hyes : c * d ≤ c * d + i ∧ c * d + i < c * d + d := by omega
        rw [if_pos hyes, Nat.add_sub_cancel_left]

/-- C1: with both feature sets present, ARD type KT_DIAG or KT_FULL, weights W
(the diagonal matrix of m_weights, or the matrix m_weights itself) with as many columns
as the feature dimension d, and an index l with 0 <= l < num_lhs, the gradient for
"latent_features" is returned and is a d x num_rhs matrix whose column r is
(-2/m_width) * kernel(l,r) * W^T W (x_l - y_r). -/
theorem get_parameter_gradient_latent_features (k : CGaussianARDFITCKernel K)
    (base : String → Int → Except String (SGMatrix K)) (L R : CDotFeatures K) (d p : Nat)
    (W : Matrix (Fin p) (Fin d) K) (index : Int)
    (hlhs : k.lhs = some L) (hrhs : k.rhs = some R)
    (hL : L.dim_feature_space = d) (hR : R.dim_feature_space = d)
    (hW : (k.m_ARD_type = .KT_DIAG ∧ p = d ∧ k.m_weights.num_rows = d ∧
            ∀ a b, W a b = if a.val = b.val then k.m_weights.matrix a.val else 0) ∨
          (k.m_ARD_type = .KT_FULL ∧ k.m_weights.num_rows = p ∧ k.m_weights.num_cols = d ∧
            ∀ a b, W a b = k.m_weights.elem a.val b.val))
    (h0 : 0 ≤ index) (hlt : index < (k.num_lhs : Int)) :
    ∃ res, k.get_parameter_gradient base "latent_features" index = .ok res ∧
      res.num_rows = d ∧ res.num_cols = k.num_rhs ∧
      ∀ r, r < k.num_rhs → ∀ i : Fin d,
        res.elem i.val r =
          (-2 / k.m_width) * k.kernel index.toNat r *
            Matrix.mulVec (Matrix.transpose W * W)
              (fun j => L.feature_vector index.toNat j.val - R.feature_vector r j.val) i := by
  simp only [get_parameter_gradient, if_true, hlhs, hrhs, h0, hlt, and_self]
  rcases hW with ⟨hty, hp, hw, hWd⟩ | ⟨hty, hwr, hwc, hWf⟩
  · subst hp
    obtain ⟨res, hres, hrows, hcols, hval⟩ :=
      gradient_loop_of_round k R index.toNat (L.get_computed_dot_feature_vector index.toNat)
        { num_rows := (L.get_computed_dot_feature_vector index.toNat).vlen,
          num_cols := k.num_rhs, matrix := fun _ => 0 } p
        (fun idx_r j =>
          (k.m_weights.matrix j *
              (L.feature_vector index.toNat j - R.feature_vector idx_r j) *
            k.m_weights.matrix j) * (k.kernel index.toNat idx_r * (-2) / k.m_width)) hL
        (fun res idx_r h => gradient_round_diag k R index.toNat _ res idx_r p hty hw hL hR h)
        k.num_rhs
    refine ⟨res, hres, hrows, hcols, ?_⟩
    intro r hr i
    rw [hval r hr i.val i.isLt]
    have hWdiag : W = Matrix.diagonal (fun a => k.m_weights.matrix a.val) := by
      ext a b
      rw [hWd, Matrix.diagonal_apply]
      simp only [Fin.ext_iff]
    rw [hWdiag, Matrix.diagonal_transpose, Matrix.diagonal_mul_diagonal,
      Matrix.mulVec_diagonal]
    ring
  · obtain ⟨res, hres, hrows, hcols, hval⟩ :=
      gradient_loop_of_round k R index.toNat (L.get_computed_dot_feature_vector index.toNat)
        { num_rows := (L.get_computed_dot_feature_vector index.toNat).vlen,
          num_cols := k.num_rhs, matrix := fun _ => 0 } d
        (fun idx_r j =>
          (∑ t in Finset.range k.m_weights.num_rows,
              (∑ s in Finset.range d, k.m_weights.elem t s *
                (L.feature_vector index.toNat s - R.feature_vector idx_r s)) *
              k.m_weights.elem t j) * (k.kernel index.toNat idx_r * (-2) / k.m_width)) hL
        (fun res idx_r h => gradient_round_full k R index.toNat _ res idx_r d hty hwc hL hR h)
        k.num_rhs
    refine ⟨res, hres, hrows, hcols, ?_⟩
    intro r hr i
    rw [hval r hr i.val i.isLt, ← Matrix.mulVec_mulVec]
    simp only [Nat.add_sub_cancel_left, CDotFeatures.get_computed_dot_feature_vector, hwr,
      Matrix.mulVec, Matrix.dotProduct, Matrix.transpose_apply, hWf, Finset.sum_range]
    rw [mul_comm]
    congr 1
    · ring
    · exact Finset.sum_congr rfl (fun a _ => mul_comm _ _)

/-- An instance of C1: the full-weights kernel in dimension two. -/
theorem get_parameter_gradient_latent_features_witness :
    ∃ res, example_full_kernel.get_parameter_gradient example_base "latent_features" 0 =
        .ok res ∧
      res.num_rows = 2 ∧ res.num_cols = example_full_kernel.num_rhs ∧
      ∀ r, r < example_full_kernel.num_rhs → ∀ i : Fin 2,
        res.elem i.val r =
          (-2 / example_full_kernel.m_width) * example_full_kernel.kernel (0 : Int).toNat r *
            Matrix.mulVec (Matrix.transpose example_full_W * example_full_W)
              (fun j => example_lhs.feature_vector (0 : Int).toNat j.val -
                example_rhs.feature_vector r j.val) i :=
  get_parameter_gradient_latent_features example_full_kernel example_base
    example_lhs example_rhs 2 2 example_full_W 0 rfl rfl rfl rfl
    (Or.inr ⟨rfl, rfl, rfl, fun _ _ => rfl⟩) (by decide) (by decide)

theorem gradient_round_scalar_mismatch (k : CGaussianARDFITCKernel K) (r : CDotFeatures K)
    (idx_l : Nat) (left_vec : SGVector K) (res : SGMatrix K) (idx_r d : Nat)
    (hty : k.m_ARD_type = .KT_SCALAR) (hd : 2 ≤ d)
    (hl : left_vec.vlen = d) (hr : r.dim_feature_space = d) :
    gradient_round k r idx_l left_vec res idx_r =
      .error "linalg::matrix_product: dimension mismatch" := by
  subst hl
  have hne : ¬ (left_vec.vlen = 1) := by omega
  simp only [gradient_round, linalg.add, CDotFeatures.get_computed_dot_feature_vector, hr,
    if_true, except_ok_bind, compute_right_product, hty, linalg.matrix_product,
    SGMatrix.set_const, hne, false_and, if_false]
  rfl

theorem gradient_loop_scalar_mismatch (k : CGaussianARDFITCKernel K) (r : CDotFeatures K)
    (idx_l : Nat) (left_vec : SGVector K) (res : SGMatrix K) (d : Nat)
    (hty : k.m_ARD_type = .KT_SCALAR) (hd : 2 ≤ d)
    (hl : left_vec.vlen = d) (hr : r.dim_feature_space = d) (n : Nat) :
    gradient_loop k r idx_l left_vec res (n + 1) =
      .error "linalg::matrix_product: dimension mismatch" := by
  induction n with
  | zero =>
    simp only [gradient_loop, except_ok_bind]
    exact gradient_round_scalar_mismatch k r idx_l left_vec res 0 d hty hd hl hr
  | succ n ih =>
    rw [gradient_loop, ih]
    rfl

theorem gradient_round_scalar_one (k : CGaussianARDFITCKernel K) (r : CDotFeatures K)
    (idx_l : Nat) (left_vec : SGVector K) (res : SGMatrix K) (idx_r : Nat)
    (hty : k.m_ARD_type = .KT_SCALAR)
    (hl : left_vec.vlen = 1) (hr : r.dim_feature_space = 1) (hres : res.num_rows = 1) :
    ∃ res1, gradient_round k r idx_l left_vec res idx_r = .ok res1 ∧
      res1.num_rows = res.num_rows ∧ res1.num_cols = res.num_cols ∧
      ∀ q, res1.matrix q =
        if idx_r * 1 ≤ q ∧ q < idx_r * 1 + 1 then
          (k.m_weights.matrix 0 * (left_vec.vector 0 - r.feature_vector idx_r 0) *
            k.m_weights.matrix 0) * (k.kernel idx_l idx_r * (-2) / k.m_width)
        else res.matrix q := by
  simp only [gradient_round, linalg.add, CDotFeatures.get_computed_dot_feature_vector, hr, hl,
    if_true, except_ok_bind, compute_right_product, hty, linalg.matrix_product,
    SGMatrix.set_const, and_self, pure, Except.pure]
  refine ⟨_, rfl, ?_, ?_, ?_⟩
  · simp [scale_loop_num_rows, SGMatrix.store_column]
  · simp [scale_loop_num_cols, SGMatrix.store_column]
  · intro q
    rw [scale_loop_matrix]
    simp only [SGMatrix.store_column, hres]
    by_cases h1 : idx_r * 1 ≤ q ∧ q < idx_r * 1 + 1
    · have hq : q = idx_r := by omega
      subst hq
      simp only [mul_one, le_refl, Nat.lt_succ_self, and_self, if_true, Nat.sub_self,
        SGMatrix.elem, Nat.mod_one, Nat.div_one, add_zero, one_mul, Finset.sum_range_one,
        Nat.lt_one_iff, zero_mul, zero_add, Nat.zero_lt_one, Nat.one_pos]
      ring
    · simp only [if_neg h1]

/-- In dimension one the KT_SCALAR branch does return the gradient the other branches
compute with W = w I: entry (0, r) is (-2/m_width) * kernel(l,r) * w^2 * (x_l - y_r). -/
theorem get_parameter_gradient_scalar_dim_one (k : CGaussianARDFITCKernel K)
    (base : String → Int → Except String (SGMatrix K)) (L R : CDotFeatures K)
    (index : Int) (hlhs : k.lhs = some L) (hrhs : k.rhs = some R)
    (hL : L.dim_feature_space = 1) (hR : R.dim_feature_space = 1)
    (hty : k.m_ARD_type = .KT_SCALAR)
    (h0 : 0 ≤ index) (hlt : index < (k.num_lhs : Int)) :
    ∃ res, k.get_parameter_gradient base "latent_features" index = .ok res ∧
      res.num_rows = 1 ∧ res.num_cols = k.num_rhs ∧
      ∀ r, r < k.num_rhs →
        res.elem 0 r =
          (-2 / k.m_width) * k.kernel index.toNat r * (k.m_weights.matrix 0) ^ 2 *
            (L.feature_vector index.toNat 0 - R.feature_vector r 0) := by
  simp only [get_parameter_gradient, if_true, hlhs, hrhs, h0, hlt, and_self]
  obtain ⟨res, hres, hrows, hcols, hval⟩ :=
    gradient_loop_of_round k R index.toNat (L.get_computed_dot_feature_vector index.toNat)
      { num_rows := (L.get_computed_dot_feature_vector index.toNat).vlen,
        num_cols := k.num_rhs, matrix := fun _ => 0 } 1
      (fun idx_r _ =>
        (k.m_weights.matrix 0 * (L.feature_vector index.toNat 0 - R.feature_vector idx_r 0) *
          k.m_weights.matrix 0) * (k.kernel index.toNat idx_r * (-2) / k.m_width)) hL
      (fun res idx_r h => gradient_round_scalar_one k R index.toNat _ res idx_r hty hL hR h)
      k.num_rhs
  refine ⟨res, hres, hrows, hcols, ?_⟩
  intro r hr
  rw [hval r hr 0 Nat.one_pos]
  ring

/-- C2: with ARD type KT_SCALAR and a feature dimension d of two or more, every call for
"latent_features" with a valid index and at least one right vector ends in the error of
linalg::matrix_product on a 1 x d row and a 1 x d constant matrix, and returns no
gradient. -/
theorem get_parameter_gradient_scalar_mismatch (k : CGaussianARDFITCKernel K)
    (base : String → Int → Except String (SGMatrix K)) (L R : CDotFeatures K) (d : Nat)
    (index : Int) (hlhs : k.lhs = some L) (hrhs : k.rhs = some R)
    (hL : L.dim_feature_space = d) (hR : R.dim_feature_space = d)
    (hty : k.m_ARD_type = .KT_SCALAR) (hd : 2 ≤ d)
    (h0 : 0 ≤ index) (hlt : index < (k.num_lhs : Int)) (hnum : 0 < k.num_rhs) :
    k.get_parameter_gradient base "latent_features" index =
      .error "linalg::matrix_product: dimension mismatch" := by
  simp only [get_parameter_gradient, if_true, hlhs, hrhs, h0, hlt, and_self]
  obtain ⟨n, hn⟩ := Nat.exists_eq_succ_of_ne_zero (Nat.pos_iff_ne_zero.mp hnum)
  rw [hn]
  exact gradient_loop_scalar_mismatch k R index.toNat _ _ d hty hd hL hR n

/-- The failing input of C2: the scalar kernel in dimension two. -/
theorem get_parameter_gradient_scalar_mismatch_witness :
    example_scalar_kernel.get_parameter_gradient example_base "latent_features" 0 =
      .error "linalg::matrix_product: dimension mismatch" :=
  get_parameter_gradient_scalar_mismatch example_scalar_kernel example_base
    example_lhs example_rhs 2 0 rfl rfl rfl rfl rfl (by decide) (by decide) (by decide)
    (by decide)

/-- C3: whenever the left or the right feature object is unset, the call for
"latent_features" raises "Features not set!" for every index, and returns no matrix. -/
theorem get_parameter_gradient_features_not_set (k : CGaussianARDFITCKernel K)
    (base : String → Int → Except String (SGMatrix K)) (index : Int)
    (h : k.lhs = none ∨ k.rhs = none) :
    k.get_parameter_gradient base "latent_features" index = .error "Features not set!\n" ∧
      ∀ res, k.get_parameter_gradient base "latent_features" index ≠ .ok res := by
  have hval : k.get_parameter_gradient base "latent_features" index =
      .error "Features not set!\n" := by
    simp only [get_parameter_gradient, if_true]
    rcases h with h | h
    · rw [h]
    · rw [h]
      cases k.lhs <;> rfl
  refine ⟨hval, ?_⟩
  intro res hres
  rw [hval] at hres
  exact Except.noConfusion hres

/-- An instance of C3: left features unset, index 5 (out of range as well). -/
theorem get_parameter_gradient_features_not_set_witness :
    example_unset_kernel.get_parameter_gradient example_base "latent_features" 5 =
        .error "Features not set!\n" ∧
      ∀ res, example_unset_kernel.get_parameter_gradient example_base "latent_features" 5 ≠
        .ok res :=
  get_parameter_gradient_features_not_set example_unset_kernel example_base 5 (Or.inl rfl)

end CGaussianARDFITCKernel

/-! ## `obtain_from_generic` -/

/-- C4: obtain_from_generic raises "Provided kernel is not of type CGaussianARDFITCKernel!"
exactly when the type tag of the kernel differs from K_GAUSSIANARDFITC; when it raises,
the object store (the reference count of the kernel included) is unchanged and no pointer
is returned. -/
theorem obtain_from_generic_error_iff {σ : Type} (kernel : Address) (mem : Store σ) :
    ((obtain_from_generic kernel mem).1 =
        .error "Provided kernel is not of type CGaussianARDFITCKernel!\n" ↔
      (mem kernel).get_kernel_type ≠ EKernelType.K_GAUSSIANARDFITC) ∧
    ((∃ e, (obtain_from_generic kernel mem).1 = .error e) ↔
      (mem kernel).get_kernel_type ≠ EKernelType.K_GAUSSIANARDFITC) ∧
    ((mem kernel).get_kernel_type ≠ EKernelType.K_GAUSSIANARDFITC →
      (obtain_from_generic kernel mem).2 = mem ∧
      ((obtain_from_generic kernel mem).2 kernel).ref_count = (mem kernel).ref_count ∧
      ∀ p, (obtain_from_generic kernel mem).1 ≠ .ok p) := by
  by_cases h : (mem kernel).get_kernel_type = EKernelType.K_GAUSSIANARDFITC
  · simp [obtain_from_generic, h]
  · simp [obtain_from_generic, h]

/-- C5: when the type tag is K_GAUSSIANARDFITC, obtain_from_generic returns the address
it was given, the object there has one more reference and is otherwise as before, and
every other object of the store is untouched. -/
theorem obtain_from_generic_same_object {σ : Type} (kernel : Address) (mem : Store σ)
    (h : (mem kernel).get_kernel_type = EKernelType.K_GAUSSIANARDFITC) :
    (obtain_from_generic kernel mem).1 = .ok kernel ∧
    ((obtain_from_generic kernel mem).2 kernel).ref_count = (mem kernel).ref_count + 1 ∧
    ((obtain_from_generic kernel mem).2 kernel).kernel_type = (mem kernel).kernel_type ∧
    ((obtain_from_generic kernel mem).2 kernel).state = (mem kernel).state ∧
    ∀ a, a ≠ kernel → (obtain_from_generic kernel mem).2 a = mem a := by
  simp only [obtain_from_generic, h, ne_eq, not_true_eq_false, if_false, SG_REF,
    Function.update_same, true_and]
  intro a ha
  exact Function.update_noteq ha _ _

/-- An instance of C5: the kernel at address 0 of the example store. -/
theorem obtain_from_generic_same_object_witness :
    (obtain_from_generic 0 example_store).1 = .ok 0 ∧
    ((obtain_from_generic 0 example_store).2 0).ref_count = (example_store 0).ref_count + 1 ∧
    ((obtain_from_generic 0 example_store).2 0).kernel_type = (example_store 0).kernel_type ∧
    ((obtain_from_generic 0 example_store).2 0).state = (example_store 0).state ∧
    ∀ a, a ≠ 0 → (obtain_from_generic 0 example_store).2 a = example_store a :=
  obtain_from_generic_same_object 0 example_store rfl

/-! ## `CFirstOrderMinimizer` -/

/-- C6: after set_cost_function(fun) the stored cost function is fun, whatever the state
before (so the last call wins), and the constructor taking fun yields the state of default
construction followed by set_cost_function(fun). -/
theorem CFirstOrderMinimizer.set_cost_function_stores (self raw : CFirstOrderMinimizer)
    (cost first : Option Address) :
    (self.set_cost_function cost).m_fun = cost ∧
    ((self.set_cost_function first).set_cost_function cost).m_fun = cost ∧
    CFirstOrderMinimizer.construct_with raw cost =
      (CFirstOrderMinimizer.construct raw).set_cost_function cost :=
  ⟨rfl, rfl, rfl⟩

/-- C7: a default-constructed CFirstOrderMinimizer holds no cost function, its m_fun is
NULL, and it stays so until set_cost_function stores one. -/
theorem CFirstOrderMinimizer.construct_m_fun_null (raw : CFirstOrderMinimizer)
    (cost : Option Address) :
    (CFirstOrderMinimizer.construct raw).m_fun = none ∧
    ((CFirstOrderMinimizer.construct raw).set_cost_function cost).m_fun = cost :=
  ⟨rfl, rfl⟩

/-! ## `CNeuralNetwork` -/

namespace CNeuralNetwork

theorem block_offsets_length (ls : List CNeuralLayer) :
    ∀ start, (block_offsets start ls).length = ls.length := by
  induction ls with
  | nil => intro start; rfl
  | cons l ls ih => intro start; simp [block_offsets, ih]

theorem block_offsets_getD (ls : List CNeuralLayer) :
    ∀ start i, i < ls.length →
      (block_offsets start ls).getD i 0 = start + total_parameters (ls.take i) := by
  induction ls with
  | nil => intro start i hi; exact absurd hi (Nat.not_lt_zero i)
  | cons l ls ih =>
    intro start i hi
    cases i with
    | zero => simp [block_offsets, total_parameters]
    | succ i =>
      have hi1 : i < ls.length := Nat.lt_of_succ_lt_succ hi
      simp only [block_offsets, List.getD_cons_succ, ih _ i hi1, List.take_succ_cons,
        total_parameters, List.map_cons, List.sum_cons]
      omega

theorem total_parameters_take_succ (ls : List CNeuralLayer) :
    ∀ i (hi : i < ls.length),
      total_parameters (ls.take (i + 1)) =
        total_parameters (ls.take i) + (ls.get ⟨i, hi⟩).get_num_parameters := by
  induction ls with
  | nil => intro i hi; exact absurd hi (Nat.not_lt_zero i)
  | cons l ls ih =>
    intro i hi
    cases i with
    | zero => simp [total_parameters]
    | succ i =>
      have hi1 : i < ls.length := Nat.lt_of_succ_lt_succ hi
      have := ih i hi1
      simp only [total_parameters, List.take_succ_cons, List.map_cons, List.sum_cons,
        List.get_cons_succ] at this ⊢
      omega

theorem total_parameters_take_mono (ls : List CNeuralLayer) :
    ∀ a b, a ≤ b → total_parameters (ls.take a) ≤ total_parameters (ls.take b) := by
  induction ls with
  | nil => intro a b _; simp [total_parameters]
  | cons l ls ih =>
    intro a b hab
    cases a with
    | zero => simp [total_parameters]
    | succ a =>
      cases b with
      | zero => exact absurd hab (Nat.not_succ_le_zero a)
      | succ b =>
        have := ih a b (Nat.le_of_succ_le_succ hab)
        simp only [total_parameters, List.take_succ_cons, List.map_cons, List.sum_cons]
          at this ⊢
        omega

theorem total_parameters_take_le (ls : List CNeuralLayer) (a : Nat) :
    total_parameters (ls.take a) ≤ total_parameters ls := by
  have h := total_parameters_take_mono ls a (max a ls.length) (le_max_left _ _)
  rwa [List.take_of_length_le (le_max_right _ _)] at h

/-- C8: when the layer array holds m_num_layers >= 1 layers, get_num_outputs returns the
number of neurons of the layer at position m_num_layers-1, the last one, and that
position is within the bounds of the layer array. -/
theorem get_num_outputs_last_layer (net : CNeuralNetwork)
    (hlen : net.m_layers.get_num_elements = net.m_num_layers)
    (hpos : 1 ≤ net.m_num_layers) :
    ∃ layer, net.m_layers.elements.get? (net.m_num_layers - 1).toNat = some layer ∧
      net.m_layers.elements.getLast? = some layer ∧
      net.get_num_outputs = some layer.get_num_neurons ∧
      0 ≤ net.m_num_layers - 1 ∧ net.m_num_layers - 1 < net.m_layers.get_num_elements := by
  have hlen1 : (net.m_layers.elements.length : Int) = net.m_num_layers := hlen
  have hidx : (net.m_num_layers - 1).toNat = net.m_layers.elements.length - 1 := by omega
  have hlt : net.m_layers.elements.length - 1 < net.m_layers.elements.length := by omega
  have h0 : 0 ≤ net.m_num_layers - 1 := by omega
  refine ⟨net.m_layers.elements.get ⟨_, hlt⟩, ?_, ?_, ?_, h0, ?_⟩
  · rw [hidx]
    exact List.get?_eq_get hlt
  · rw [List.getLast?_eq_getElem?, List.getElem?_eq_getElem hlt]
    rfl
  · simp only [get_num_outputs, get_layer, CDynamicObjectArray.element, h0, if_true, hidx,
      List.get?_eq_get hlt, Option.map_some']
  · simp only [CDynamicObjectArray.get_num_elements]
    omega

/-- An instance of C8: the example network has three layers and two outputs. -/
theorem get_num_outputs_last_layer_witness :
    ∃ layer, example_network.m_layers.elements.get?
          (example_network.m_num_layers - 1).toNat = some layer ∧
      example_network.m_layers.elements.getLast? = some layer ∧
      example_network.get_num_outputs = some layer.get_num_neurons ∧
      0 ≤ example_network.m_num_layers - 1 ∧
      example_network.m_num_layers - 1 < example_network.m_layers.get_num_elements :=
  get_num_outputs_last_layer example_network rfl (by decide)

/-- C9: for every layer index i, get_layer_params(i), get_layer_param_gradients(i) and
get_layer_param_regularizable(i) point at the same offset m_index_offsets[i] of their
arrays: the k-th cell from each pointer is cell m_index_offsets[i]+k of m_params,
m_param_gradients and m_param_regularizable respectively. -/
theorem get_layer_pointers_same_offset (net : CNeuralNetwork) (i : Nat) (k : Int) :
    (net.get_layer_params i).add k =
        { block := net.m_params, index := net.m_index_offsets.vector i + k } ∧
    (net.get_layer_param_gradients i).add k =
        { block := net.m_param_gradients, index := net.m_index_offsets.vector i + k } ∧
    (net.get_layer_param_regularizable i).add k =
        { block := net.m_param_regularizable, index := net.m_index_offsets.vector i + k } ∧
    (net.get_layer_params i).index = (net.get_layer_param_gradients i).index ∧
    (net.get_layer_params i).index = (net.get_layer_param_regularizable i).index := by
  simp [get_layer_params, get_layer_param_gradients, get_layer_param_regularizable,
    Pointer.add, SGVector.data]

/-- C10: after initialize(num_inputs, layers) the block of layer i starts at
m_index_offsets[i], at or after cell 0, and ends within m_params and m_param_gradients;
the block of a layer ends where or before the block of every later layer starts; and
get_num_parameters() is the sum of the parameter counts of the layers and the length of
m_params and of m_param_gradients. -/
theorem initialise_layout (net : CNeuralNetwork) (num_inputs : Int)
    (layers : CDynamicObjectArray) :
    (∀ i (hi : i < layers.elements.length),
      (net.initialise num_inputs layers).get_layer_params i =
          { block := (net.initialise num_inputs layers).m_params,
            index := (net.initialise num_inputs layers).m_index_offsets.vector i } ∧
      (net.initialise num_inputs layers).get_layer_param_gradients i =
          { block := (net.initialise num_inputs layers).m_param_gradients,
            index := (net.initialise num_inputs layers).m_index_offsets.vector i } ∧
      0 ≤ (net.initialise num_inputs layers).m_index_offsets.vector i ∧
      (net.initialise num_inputs layers).m_index_offsets.vector i +
          ((layers.elements.get ⟨i, hi⟩).get_num_parameters : Int) ≤
        ((net.initialise num_inputs layers).m_params.vlen : Int) ∧
      (net.initialise num_inputs layers).m_index_offsets.vector i +
          ((layers.elements.get ⟨i, hi⟩).get_num_parameters : Int) ≤
        ((net.initialise num_inputs layers).m_param_gradients.vlen : Int)) ∧
    (∀ i j (hij : i < j) (hj : j < layers.elements.length),
      (net.initialise num_inputs layers).m_index_offsets.vector i +
          ((layers.elements.get ⟨i, hij.trans hj⟩).get_num_parameters : Int) ≤
        (net.initialise num_inputs layers).m_index_offsets.vector j) ∧
    (net.initialise num_inputs layers).get_num_parameters =
      ((layers.elements.map CNeuralLayer.get_num_parameters).sum : Nat) ∧
    ((net.initialise num_inputs layers).m_params.vlen : Int) =
      (net.initialise num_inputs layers).get_num_parameters ∧
    ((net.initialise num_inputs layers).m_param_gradients.vlen : Int) =
      (net.initialise num_inputs layers).get_num_parameters := by
  refine ⟨?_, ?_, rfl, rfl, rfl⟩
  · intro i hi
    have hoff := block_offsets_getD layers.elements 0 i hi
    have hsucc := total_parameters_take_succ layers.elements i hi
    have hle := total_parameters_take_le layers.elements (i + 1)
    refine ⟨?_, ?_, ?_, ?_, ?_⟩
    · simp [get_layer_params, Pointer.add, SGVector.data]
    · simp [get_layer_param_gradients, Pointer.add, SGVector.data]
    · simp only [initialise]
      exact Int.natCast_nonneg _
    · simp only [initialise, hoff]
      omega
    · simp only [initialise, hoff]
      omega
  · intro i j hij hj
    have hi : i < layers.elements.length := hij.trans hj
    have hoffi := block_offsets_getD layers.elements 0 i hi
    have hoffj := block_offsets_getD layers.elements 0 j hj
    have hsucc := total_parameters_take_succ layers.elements i hi
    have hmono := total_parameters_take_mono layers.elements (i + 1) j hij
    simp only [initialise, hoffi, hoffj]
    omega

end CNeuralNetwork

/-- C11: a newly constructed CNeuralNetwork has the documented default training
parameters: l2_coefficient = 0.0, max_num_epochs = 100, gd_learning_rate = 0.1,
gd_momentum = 0.9 and m_batch_size = 1, whatever the memory held before. -/
theorem construct_default_training_parameters (raw : CNeuralNetworkParameters) :
    raw.construct.l2_coefficient = 0 ∧ raw.construct.max_num_epochs = 100 ∧
    raw.construct.gd_learning_rate = 1 / 10 ∧ raw.construct.gd_momentum = 9 / 10 ∧
    raw.construct.m_batch_size = 1 :=
  ⟨rfl, rfl, rfl, rfl, rfl⟩

/-! ## `CBaggingMachine` -/

namespace CBaggingMachine

/-- The calls among `calls` on the two methods the test watches. -/
theorem train_bags_watched (bm : CBaggingMachine) (n : Nat) :
    (train_bags bm n).filter
        (fun c => decide (c = MockCall.clone ∨ c = MockCall.get_num_vectors)) =
      mock_train_expectations n := by
  induction n with
  | zero => rfl
  | succ n ih =>
    rw [train_bags, List.filter_append, ih]
    rfl

theorem train_bags_count_clone (bm : CBaggingMachine) (n : Nat) :
    (train_bags bm n).count MockCall.clone = n := by
  induction n with
  | zero => rfl
  | succ n ih =>
    rw [train_bags, List.count_append, ih]
    rfl

theorem train_bags_count_get_num_vectors (bm : CBaggingMachine) (n : Nat) :
    (train_bags bm n).count MockCall.get_num_vectors = n := by
  induction n with
  | zero => rfl
  | succ n ih =>
    rw [train_bags, List.count_append, ih]
    rfl

end CBaggingMachine

theorem in_sequence_verdict_iff (watched : MockCall → Bool) (calls : List MockCall) :
    ∀ queue, in_sequence_verdict watched queue calls = true ↔ calls.filter watched = queue := by
  induction calls with
  | nil =>
    intro queue
    cases queue <;> simp [in_sequence_verdict]
  | cons c calls ih =>
    intro queue
    by_cases hc : watched c = true
    · cases queue with
      | nil => simp [in_sequence_verdict, hc]
      | cons e rest => simp [in_sequence_verdict, hc, ih rest]
    · simp [in_sequence_verdict, hc, ih queue]

theorem mock_train_expectations_join (n : Nat) :
    mock_train_expectations n =
      (List.replicate n [MockCall.clone, MockCall.get_num_vectors]).flatten := by
  induction n with
  | zero => rfl
  | succ n ih =>
    rw [mock_train_expectations, ih, List.replicate_succ', List.flatten_append]
    simp

theorem mem_mock_train_expectations (n : Nat) (c : MockCall) :
    c ∈ mock_train_expectations (n + 1) ↔ c = MockCall.clone ∨ c = MockCall.get_num_vectors := by
  induction n with
  | zero => simp [mock_train_expectations]
  | succ n ih =>
    rw [mock_train_expectations, List.mem_append, ih]
    simp

namespace CBaggingMachine

/-- C12: for every number of bags n and every bag size, train() makes exactly n calls of
clone on the base machine and exactly n calls of get_num_vectors on the features, and
these calls come in the strict order clone, get_num_vectors, clone, get_num_vectors, ...,
one pair per bag, which is what the expectations of the test mock_train accept. -/
theorem train_clones_then_counts (bm : CBaggingMachine) :
    bm.train.count MockCall.clone = bm.m_num_bags ∧
    bm.train.count MockCall.get_num_vectors = bm.m_num_bags ∧
    bm.train.filter (fun c => decide (c = MockCall.clone ∨ c = MockCall.get_num_vectors)) =
      (List.replicate bm.m_num_bags [MockCall.clone, MockCall.get_num_vectors]).flatten ∧
    mock_train_verdict bm.m_num_bags bm.train = true := by
  refine ⟨train_bags_count_clone bm _, train_bags_count_get_num_vectors bm _, ?_, ?_⟩
  · rw [train, train_bags_watched, mock_train_expectations_join]
  · rw [mock_train_verdict, in_sequence_verdict_iff, train]
    cases hn : bm.m_num_bags with
    | zero => rfl
    | succ n =>
      refine Eq.trans ?_ (train_bags_watched bm (n + 1))
      apply List.filter_congr
      intro c _
      by_cases h : c = MockCall.clone ∨ c = MockCall.get_num_vectors
      · simp [mem_mock_train_expectations, h]
      · simp [mem_mock_train_expectations, h]

/-- The run of the test mock_train itself: 10 bags of size 20 on 100 vectors. -/
theorem train_example_verdict :
    mock_train_verdict 10 example_bagging_machine.train = true ∧
    example_bagging_machine.train.length = 30 := by
  decide

end CBaggingMachine

/-! ## `CLinearTimeMMD` -/

theorem SGMatrix.set_num_rows {K : Type} (M : SGMatrix K) (i j : Nat) (v : K) :
    (M.set i j v).num_rows = M.num_rows := rfl

theorem SGMatrix.set_num_cols {K : Type} (M : SGMatrix K) (i j : Nat) (v : K) :
    (M.set i j v).num_cols = M.num_cols := rfl

theorem SGMatrix.elem_set {K : Type} (M : SGMatrix K) (i j a b : Nat) (v : K)
    (hi : i < M.num_rows) (ha : a < M.num_rows) :
    (M.set i j v).elem a b = if a = i ∧ b = j then v else M.elem a b := by
  simp only [SGMatrix.elem, SGMatrix.set]
  by_cases h : a = i ∧ b = j
  · obtain ⟨h1, h2⟩ := h
    subst h1 h2
    simp
  · rw [if_neg h]
    apply Function.update_noteq
    intro heq
    apply h
    have hmod : (b * M.num_rows + a) % M.num_rows = (j * M.num_rows + i) % M.num_rows := by
      rw [heq]
    rw [Nat.mul_add_mod_of_lt ha, Nat.mul_add_mod_of_lt hi] at hmod
    subst hmod
    have hpos : 0 < M.num_rows := Nat.lt_of_le_of_lt (Nat.zero_le _) ha
    exact ⟨rfl, Nat.eq_of_mul_eq_mul_right hpos (Nat.add_right_cancel heq)⟩

namespace CLinearTimeMMD

variable {K X : Type}

theorem fill_row_shape (entry : Nat → Nat → K) (i n : Nat) (Q : SGMatrix K) :
    (fill_row entry i n Q).num_rows = Q.num_rows ∧
      (fill_row entry i n Q).num_cols = Q.num_cols := by
  induction n with
  | zero => exact ⟨rfl, rfl⟩
  | succ n ih => exact ih

theorem fill_lower_shape (entry : Nat → Nat → K) (n : Nat) (Q : SGMatrix K) :
    (fill_lower entry n Q).num_rows = Q.num_rows ∧
      (fill_lower entry n Q).num_cols = Q.num_cols := by
  induction n with
  | zero => exact ⟨rfl, rfl⟩
  | succ n ih =>
    have h := fill_row_shape entry n (n + 1) (fill_lower entry n Q)
    exact ⟨h.1.trans ih.1, h.2.trans ih.2⟩

theorem mirror_row_shape (i n : Nat) (Q : SGMatrix K) :
    (mirror_row i n Q).num_rows = Q.num_rows ∧ (mirror_row i n Q).num_cols = Q.num_cols := by
  induction n with
  | zero => exact ⟨rfl, rfl⟩
  | succ n ih => exact ih

theorem mirror_upper_shape (n : Nat) (Q : SGMatrix K) :
    (mirror_upper n Q).num_rows = Q.num_rows ∧ (mirror_upper n Q).num_cols = Q.num_cols := by
  induction n with
  | zero => exact ⟨rfl, rfl⟩
  | succ n ih =>
    have h := mirror_row_shape n n (mirror_upper n Q)
    exact ⟨h.1.trans ih.1, h.2.trans ih.2⟩

theorem fill_row_elem (entry : Nat → Nat → K) (i : Nat) (Q : SGMatrix K)
    (hi : i < Q.num_rows) (a b : Nat) (ha : a < Q.num_rows) (n : Nat) :
    (fill_row entry i n Q).elem a b = if a = i ∧ b < n then entry i b else Q.elem a b := by
  induction n with
  | zero => simp [fill_row]
  | succ n ih =>
    have hrows := (fill_row_shape entry i n Q).1
    rw [fill_row, SGMatrix.elem_set _ _ _ _ _ _ (hrows ▸ hi) (hrows ▸ ha), ih]
    by_cases h1 : a = i ∧ b = n
    · obtain ⟨h2, h3⟩ := h1
      subst h2 h3
      simp
    · rw [if_neg h1]
      by_cases h2 : a = i ∧ b < n
      · rw [if_pos h2, if_pos ⟨h2.1, Nat.lt_succ_of_lt h2.2⟩]
      · rw [if_neg h2, if_neg]
        rintro ⟨h3, h4⟩
        rcases Nat.lt_succ_iff_lt_or_eq.mp h4 with h5 | h5
        · exact h2 ⟨h3, h5⟩
        · exact h1 ⟨h3, h5⟩

theorem fill_lower_elem (entry : Nat → Nat → K) (Q : SGMatrix K) (a b : Nat)
    (ha : a < Q.num_rows) (n : Nat) (hn : n ≤ Q.num_rows) :
    (fill_lower entry n Q).elem a b =
      if a < n ∧ b ≤ a then entry a b else Q.elem a b := by
  induction n with
  | zero => simp [fill_lower]
  | succ n ih =>
    have hrows := (fill_lower_shape entry n Q).1
    have hn1 : n < Q.num_rows := hn
    rw [fill_lower, fill_row_elem entry n _ (hrows ▸ hn1) a b (hrows ▸ ha),
      ih (Nat.le_of_lt hn1)]
    by_cases h1 : a = n ∧ b < n + 1
    · obtain ⟨h2, h3⟩ := h1
      subst h2
      rw [if_pos ⟨rfl, h3⟩, if_pos ⟨Nat.lt_succ_self _, Nat.lt_succ_iff.mp h3⟩]
    · rw [if_neg h1]
      by_cases h2 : a < n ∧ b ≤ a
      · rw [if_pos h2, if_pos ⟨Nat.lt_succ_of_lt h2.1, h2.2⟩]
      · rw [if_neg h2, if_neg]
        rintro ⟨h3, h4⟩
        rcases Nat.lt_succ_iff_lt_or_eq.mp h3 with h5 | h5
        · exact h2 ⟨h5, h4⟩
        · exact h1 ⟨h5, by omega⟩

theorem mirror_row_elem (i : Nat) (Q : SGMatrix K) (hi : i < Q.num_rows) (n : Nat)
    (hn : n ≤ i) (a b : Nat) (ha : a < Q.num_rows) :
    (mirror_row i n Q).elem a b = if b = i ∧ a < n then Q.elem i a else Q.elem a b := by
  induction n generalizing a b with
  | zero => simp [mirror_row]
  | succ n ih =>
    have hrows := (mirror_row_shape i n Q).1
    have hni : n < i := hn
    have hnr : n < Q.num_rows := Nat.lt_trans hni hi
    simp only [mirror_row]
    rw [SGMatrix.elem_set _ _ _ _ _ _ (hrows ▸ hnr) (hrows ▸ ha),
      ih (Nat.le_of_lt hni) i n hi, ih (Nat.le_of_lt hni) a b ha]
    have hne : ¬ (n = i ∧ i < n) := fun h => absurd h.1 (Nat.ne_of_lt hni)
    rw [if_neg hne]
    by_cases h1 : a = n ∧ b = i
    · obtain ⟨h2, h3⟩ := h1
      subst h2 h3
      rw [if_pos ⟨rfl, rfl⟩, if_pos ⟨rfl, Nat.lt_succ_self _⟩]
    · rw [if_neg h1]
      by_cases h2 : b = i ∧ a < n
      · rw [if_pos h2, if_pos ⟨h2.1, Nat.lt_succ_of_lt h2.2⟩]
      · rw [if_neg h2, if_neg]
        rintro ⟨h3, h4⟩
        rcases Nat.lt_succ_iff_lt_or_eq.mp h4 with h5 | h5
        · exact h2 ⟨h3, h5⟩
        · exact h1 ⟨h5, h3⟩

theorem mirror_upper_elem (Q : SGMatrix K) (n : Nat) (hn : n ≤ Q.num_rows) (a b : Nat)
    (ha : a < Q.num_rows) (hb : b < Q.num_rows) :
    (mirror_upper n Q).elem a b = if a < b ∧ b < n then Q.elem b a else Q.elem a b := by
  induction n generalizing a b with
  | zero => simp [mirror_upper]
  | succ n ih =>
    have hrows := (mirror_upper_shape n Q).1
    have hn1 : n < Q.num_rows := hn
    have hle : n ≤ Q.num_rows := Nat.le_of_lt hn1
    rw [mirror_upper, mirror_row_elem n _ (hrows ▸ hn1) n (Nat.le_refl n) a b (hrows ▸ ha)]
    by_cases h1 : b = n ∧ a < n
    · obtain ⟨h2, h3⟩ := h1
      subst h2
      rw [if_pos ⟨rfl, h3⟩, ih hle b a hb ha, if_neg (fun h => absurd h.1 (Nat.lt_asymm h3)),
        if_pos ⟨h3, Nat.lt_succ_self _⟩]
    · rw [if_neg h1, ih hle a b ha hb]
      by_cases h2 : a < b ∧ b < n
      · rw [if_pos h2, if_pos ⟨h2.1, Nat.lt_succ_of_lt h2.2⟩]
      · rw [if_neg h2, if_neg]
        rintro ⟨h3, h4⟩
        rcases Nat.lt_succ_iff_lt_or_eq.mp h4 with h5 | h5
        · exact h2 ⟨h3, h5⟩
        · exact h1 ⟨h5, h5 ▸ h3⟩

theorem block_equal_samples (mmd : CLinearTimeMMD K X) (m b : Nat) (hm : mmd.m_m = m)
    (hn : mmd.m_n = m) (hB : mmd.m_blocksize = 2 * b) (hpos : 0 < m) :
    mmd.block_p = b ∧ mmd.block_q = b := by
  have h : 2 * b * m / (m + m) = b := by
    apply Nat.div_eq_of_eq_mul_left (by omega)
    ring
  simp only [block_p, block_q, hm, hn, hB, h, and_self]

variable [Field K]

/-- C16: the matrix Q written by compute_statistic_and_Q has one row and one column per
sub-kernel and is symmetric, Q(i,j) = Q(j,i) for all i and j, whatever the null variance
estimation method and the entries it estimates. -/
theorem compute_statistic_and_Q_symmetric (sqrt : K → K) (mmd : CLinearTimeMMD K X)
    (entry : ENullVarEstMethod → Nat → Nat → K) :
    (mmd.compute_statistic_and_Q sqrt entry).2.num_rows = mmd.num_kernels ∧
    (mmd.compute_statistic_and_Q sqrt entry).2.num_cols = mmd.num_kernels ∧
    ∀ i j, i < mmd.num_kernels → j < mmd.num_kernels →
      (mmd.compute_statistic_and_Q sqrt entry).2.elem i j =
        (mmd.compute_statistic_and_Q sqrt entry).2.elem j i := by
  have hshape := fun (Q : SGMatrix K) => mirror_upper_shape mmd.num_kernels
    (fill_lower (entry mmd.m_null_var_est_method) mmd.num_kernels Q)
  have hlow := fun (Q : SGMatrix K) =>
    fill_lower_shape (entry mmd.m_null_var_est_method) mmd.num_kernels Q
  refine ⟨?_, ?_, ?_⟩
  · exact ((hshape _).1.trans (hlow _).1)
  · exact ((hshape _).2.trans (hlow _).2)
  · intro i j hi hj
    simp only [compute_statistic_and_Q]
    have hrows1 : (fill_lower (entry mmd.m_null_var_est_method) mmd.num_kernels
        ⟨mmd.num_kernels, mmd.num_kernels, fun _ => (0 : K)⟩).num_rows = mmd.num_kernels :=
      (hlow ⟨mmd.num_kernels, mmd.num_kernels, fun _ => (0 : K)⟩).1
    rw [mirror_upper_elem _ _ (le_of_eq hrows1.symm) i j (hrows1.symm ▸ hi) (hrows1.symm ▸ hj),
      mirror_upper_elem _ _ (le_of_eq hrows1.symm) j i (hrows1.symm ▸ hj) (hrows1.symm ▸ hi)]
    rcases Nat.lt_trichotomy i j with h | h | h
    · rw [if_pos ⟨h, hj⟩, if_neg (fun h2 => absurd h2.1 (Nat.lt_asymm h))]
    · subst h
      rfl
    · rw [if_neg (fun h2 => absurd h2.1 (Nat.lt_asymm h)), if_pos ⟨h, hi⟩]

theorem whole_kernel_single (mmd : CLinearTimeMMD K X) (k : X → X → K)
    (hk : mmd.m_kernel = [k]) : mmd.whole_kernel = k := by
  funext x y
  simp [whole_kernel, hk]

/-- The term counter of the loop of `compute_statistic_and_Q` is one more than the number
of blocks seen. -/
theorem running_statistic_counter (mmd : CLinearTimeMMD K X) (k : X → X → K) (n : Nat) :
    (mmd.running_statistic k n).2 = n + 1 := by
  induction n with
  | zero => rfl
  | succ n ih =>
    simp only [running_statistic]
    rw [ih]

/-- The loop of `compute_statistic_and_Q` does not look at the null variance estimation
method. -/
theorem running_statistic_method (mmd : CLinearTimeMMD K X) (method : ENullVarEstMethod)
    (k : X → X → K) (n : Nat) :
    running_statistic { mmd with m_null_var_est_method := method } k n =
      mmd.running_statistic k n := by
  induction n with
  | zero => rfl
  | succ n ih =>
    simp only [running_statistic]
    rw [ih]
    rfl

/-- Whatever the code path the null variance estimation method selects, after `n` blocks
the loop of `compute_statistic_and_variance` holds the running statistic and the term
counter of the loop of `compute_statistic_and_Q`. -/
theorem running_estimate_statistic (mmd : CLinearTimeMMD K X)
    (null_term : (X → X → K) → Nat → K) (k : X → X → K) (n : Nat) :
    (mmd.running_estimate null_term k n).statistic = (mmd.running_statistic k n).1 ∧
      (mmd.running_estimate null_term k n).term_counter = (mmd.running_statistic k n).2 := by
  induction n with
  | zero => exact ⟨rfl, rfl⟩
  | succ n ih =>
    obtain ⟨ih1, ih2⟩ := ih
    simp only [running_estimate, running_statistic, update_estimate]
    cases mmd.m_null_var_est_method
    · exact ⟨by simp only [ih1, ih2], by simp only [ih2]⟩
    · exact ⟨by simp only [ih1, ih2], by simp only [ih2]⟩
    · exact ⟨by simp only [ih1, ih2], by simp only [ih2]⟩

/-- The running mean after `n` blocks, times `n`, is the sum of the within-block estimates
of these blocks. -/
theorem running_statistic_sum [CharZero K] (mmd : CLinearTimeMMD K X) (k : X → X → K)
    (n : Nat) :
    (mmd.running_statistic k n).1 * (n : K) =
      ∑ t in Finset.range n, mmd.block_estimate k t := by
  induction n with
  | zero => simp
  | succ n ih =>
    have hne : ((n : K) + 1) ≠ 0 := Nat.cast_add_one_ne_zero n
    rw [Finset.sum_range_succ, ← ih]
    simp only [running_statistic]
    rw [running_statistic_counter]
    push_cast
    field_simp
    ring

/-- The running mean over all the blocks is the average `block_average` over the blocks. -/
theorem running_statistic_average [CharZero K] (mmd : CLinearTimeMMD K X)
    (k : X → X → K) :
    (mmd.running_statistic k mmd.num_blocks).1 = mmd.block_average k := by
  rw [block_average, ← running_statistic_sum]
  by_cases h : mmd.num_blocks = 0
  · rw [h]
    simp [running_statistic]
  · have hne : (mmd.num_blocks : K) ≠ 0 := Nat.cast_ne_zero.mpr h
    rw [mul_div_assoc, div_self hne, mul_one]

/-- The statistics `compute_statistic_and_Q` writes, in closed form. -/
theorem compute_statistic_and_Q_closed [CharZero K] (sqrt : K → K)
    (mmd : CLinearTimeMMD K X) (entry : ENullVarEstMethod → Nat → Nat → K) (i : Nat) :
    (mmd.compute_statistic_and_Q sqrt entry).1.vector i =
      mmd.statistic_for sqrt (mmd.subkernel i) := by
  simp only [compute_statistic_and_Q, statistic_for, running_statistic_average]

/-- The statistics `compute_statistic_and_variance` writes for the sub-kernels, in closed
form. -/
theorem compute_statistic_and_variance_closed [CharZero K] (sqrt : K → K)
    (mmd : CLinearTimeMMD K X) (null_term : (X → X → K) → Nat → K)
    (var_est_multiplier : K) (i : Nat) :
    (mmd.compute_statistic_and_variance sqrt null_term var_est_multiplier true).1.vector i =
      mmd.statistic_for sqrt (mmd.subkernel i) := by
  simp only [compute_statistic_and_variance, if_true, statistic_for,
    (running_estimate_statistic mmd null_term _ _).1, running_statistic_average]

/-- The statistic `compute_statistic()` returns, in closed form. -/
theorem compute_statistic_closed [CharZero K] (sqrt : K → K) (mmd : CLinearTimeMMD K X)
    (null_term : (X → X → K) → Nat → K) (var_est_multiplier : K) :
    mmd.compute_statistic sqrt null_term var_est_multiplier =
      mmd.statistic_for sqrt mmd.whole_kernel := by
  simp only [compute_statistic, compute_statistic_multiple, compute_statistic_and_variance,
    Bool.false_eq_true, if_false, statistic_for,
    (running_estimate_statistic mmd null_term _ _).1, running_statistic_average]

/-- In the model, with a single kernel k, statistic type S_UNBIASED, m > 0 samples from
each of p and q and blocks of b samples from p and b from q (blocksize 2b),
compute_statistic() is sqrt(m m / (m + m)) times the average over the blocks of the
within-block unbiased estimate. The factor is 1 in the tests that call
compute_statistic() (m = 2); it comes from the per-kernel statistics of the tests with
m = 8, and no test checks it on compute_statistic() itself. -/
theorem compute_statistic_single_unbiased [CharZero K] (sqrt : K → K)
    (mmd : CLinearTimeMMD K X) (null_term : (X → X → K) → Nat → K)
    (var_est_multiplier : K)
    (k : X → X → K) (m b : Nat) (hk : mmd.m_kernel = [k]) (hm : mmd.m_m = m)
    (hn : mmd.m_n = m) (hB : mmd.m_blocksize = 2 * b)
    (hty : mmd.m_statistic_type = .S_UNBIASED) (hpos : 0 < m) :
    mmd.compute_statistic sqrt null_term var_est_multiplier =
      sqrt (((m : K) * (m : K)) / ((m : K) + (m : K))) *
        ((∑ t in Finset.range ((m + m) / (2 * b)),
            ((∑ i in Finset.range b, ∑ j in Finset.range b,
                  if i = j then 0
                  else k (mmd.m_streaming_p (t * b + i)) (mmd.m_streaming_p (t * b + j))) /
                ((b : K) * ((b : K) - 1)) +
              (∑ i in Finset.range b, ∑ j in Finset.range b,
                  if i = j then 0
                  else k (mmd.m_streaming_q (t * b + i)) (mmd.m_streaming_q (t * b + j))) /
                ((b : K) * ((b : K) - 1)) -
              2 * (∑ i in Finset.range b, ∑ j in Finset.range b,
                  k (mmd.m_streaming_p (t * b + i)) (mmd.m_streaming_q (t * b + j))) /
                ((b : K) * (b : K)))) /
          (((m + m) / (2 * b) : ℕ) : K)) := by
  obtain ⟨hp, hq⟩ := block_equal_samples mmd m b hm hn hB hpos
  rw [compute_statistic_closed]
  simp only [statistic_for, compute_stat_est_multiplier, block_average,
    block_estimate, num_blocks, whole_kernel_single mmd k hk, hp, hq, hm, hn, hB, hty,
    unbiased_estimate]

/-- With one block, the online variance of the method NO_PERMUTATION_DEPRECATED is 0, the
value the tests `variance_single_kernel_fixed_*_DEPRECATED` expect. -/
theorem variance_estimate_one_block (mmd : CLinearTimeMMD K X)
    (null_term : (X → X → K) → Nat → K) (var_est_multiplier : K) (k : X → X → K)
    (hmethod : mmd.m_null_var_est_method = .NO_PERMUTATION_DEPRECATED) :
    mmd.variance_estimate var_est_multiplier (mmd.running_estimate null_term k 1) = 0 := by
  simp [variance_estimate, running_estimate, update_estimate, hmethod]

/-- Under NO_PERMUTATION_DEPRECATED the running variance term after `n` blocks is the sum
of the squares of the within-block estimates minus `n` times the square of their running
mean (D. Knuth's online variance). -/
theorem running_estimate_variance [CharZero K] (mmd : CLinearTimeMMD K X)
    (null_term : (X → X → K) → Nat → K) (k : X → X → K)
    (hmethod : mmd.m_null_var_est_method = .NO_PERMUTATION_DEPRECATED) (n : Nat) :
    (mmd.running_estimate null_term k n).variance =
      ∑ t in Finset.range n, mmd.block_estimate k t ^ 2 -
        (n : K) * (mmd.running_statistic k n).1 ^ 2 := by
  induction n with
  | zero => simp [running_estimate]
  | succ n ih =>
    have hne : ((n : K) + 1) ≠ 0 := Nat.cast_add_one_ne_zero n
    obtain ⟨hs, hc⟩ := running_estimate_statistic mmd null_term k n
    simp only [running_estimate, update_estimate, hmethod, running_statistic]
    rw [ih, hs, hc, running_statistic_counter, Finset.sum_range_succ]
    push_cast
    field_simp
    ring

/-- Under NO_PERMUTATION_DEPRECATED the variance estimate over `n > 0` blocks is the
factor times the variance of the within-block estimates: the mean of their squares minus
the square of their mean. -/
theorem variance_estimate_deprecated [CharZero K] (mmd : CLinearTimeMMD K X)
    (null_term : (X → X → K) → Nat → K) (var_est_multiplier : K) (k : X → X → K)
    (hmethod : mmd.m_null_var_est_method = .NO_PERMUTATION_DEPRECATED) (n : Nat)
    (hn : 0 < n) :
    mmd.variance_estimate var_est_multiplier (mmd.running_estimate null_term k n) =
      var_est_multiplier *
        ((∑ t in Finset.range n, mmd.block_estimate k t ^ 2) / (n : K) -
          ((∑ t in Finset.range n, mmd.block_estimate k t) / (n : K)) ^ 2) := by
  have hne : (n : K) ≠ 0 := Nat.cast_ne_zero.mpr (Nat.pos_iff_ne_zero.mp hn)
  have hsum := running_statistic_sum mmd k n
  simp only [variance_estimate, hmethod]
  rw [running_estimate_variance mmd null_term k hmethod n,
    (running_estimate_statistic mmd null_term k n).2, running_statistic_counter, ← hsum]
  push_cast
  field_simp

/-- C14: the statistics compute_statistic_and_Q writes in its loop over the blocks are as
many as, and entry by entry equal to, those compute_statistic(true) returns from the loop
of compute_statistic_and_variance on an identically configured instance: one per
sub-kernel of the combined kernel, whatever the terms under the null hypothesis and the
factor of the variance. -/
theorem compute_statistic_and_Q_statistics (sqrt : K → K) (mmd : CLinearTimeMMD K X)
    (entry : ENullVarEstMethod → Nat → Nat → K) (null_term : (X → X → K) → Nat → K)
    (var_est_multiplier : K) :
    (mmd.compute_statistic_and_Q sqrt entry).1.vlen =
        (mmd.compute_statistic_multiple sqrt null_term var_est_multiplier true).vlen ∧
    (mmd.compute_statistic_and_Q sqrt entry).1.vlen = mmd.num_kernels ∧
    ∀ i, (mmd.compute_statistic_and_Q sqrt entry).1.vector i =
      (mmd.compute_statistic_multiple sqrt null_term var_est_multiplier true).vector i := by
  refine ⟨rfl, rfl, fun i => ?_⟩
  simp only [compute_statistic_and_Q, compute_statistic_multiple,
    compute_statistic_and_variance, if_true,
    (running_estimate_statistic mmd null_term _ _).1]

/-- C15: the per-kernel statistics do not depend on the null variance estimation method:
for one set-up (kernels, streams, sample numbers, blocksize, statistic type),
compute_statistic_and_Q and compute_statistic_and_variance return the same statistics
under any two methods, that is through any two of the code paths the method selects in
the loop over the blocks, whatever Q, the terms under the null hypothesis and the
variances come out as. -/
theorem statistics_independent_of_method (sqrt : K → K) (mmd : CLinearTimeMMD K X)
    (method1 method2 : ENullVarEstMethod) (entry1 entry2 : ENullVarEstMethod → Nat → Nat → K)
    (null_term1 null_term2 : (X → X → K) → Nat → K)
    (var_est_multiplier1 var_est_multiplier2 : K) (multiple_kernels : Bool) :
    (compute_statistic_and_Q sqrt { mmd with m_null_var_est_method := method1 } entry1).1 =
      (compute_statistic_and_Q sqrt { mmd with m_null_var_est_method := method2 } entry2).1 ∧
    (compute_statistic_and_variance sqrt { mmd with m_null_var_est_method := method1 }
        null_term1 var_est_multiplier1 multiple_kernels).1 =
      (compute_statistic_and_variance sqrt { mmd with m_null_var_est_method := method2 }
        null_term2 var_est_multiplier2 multiple_kernels).1 ∧
    (compute_statistic_and_Q sqrt { mmd with m_null_var_est_method := method1 } entry1).1 =
      (compute_statistic_and_variance sqrt { mmd with m_null_var_est_method := method2 }
        null_term2 var_est_multiplier2 true).1 := by
  have hA : ∀ (method : ENullVarEstMethod) (entry : ENullVarEstMethod → Nat → Nat → K),
      (compute_statistic_and_Q sqrt { mmd with m_null_var_est_method := method } entry).1 =
        { vlen := mmd.num_kernels,
          vector := fun i => mmd.compute_stat_est_multiplier sqrt *
            (mmd.running_statistic (mmd.subkernel i) mmd.num_blocks).1 } := by
    intro method entry
    simp only [compute_statistic_and_Q, running_statistic_method]
    rfl
  have hB : ∀ (method : ENullVarEstMethod) (null_term : (X → X → K) → Nat → K)
      (var_est_multiplier : K),
      (compute_statistic_and_variance sqrt { mmd with m_null_var_est_method := method }
          null_term var_est_multiplier true).1 =
        { vlen := mmd.num_kernels,
          vector := fun i => mmd.compute_stat_est_multiplier sqrt *
            (mmd.running_statistic (mmd.subkernel i) mmd.num_blocks).1 } := by
    intro method null_term var_est_multiplier
    simp only [compute_statistic_and_variance, if_true,
      (running_estimate_statistic _ null_term _ _).1, running_statistic_method]
    rfl
  have hB0 : ∀ (method : ENullVarEstMethod) (null_term : (X → X → K) → Nat → K)
      (var_est_multiplier : K),
      (compute_statistic_and_variance sqrt { mmd with m_null_var_est_method := method }
          null_term var_est_multiplier false).1 =
        { vlen := 1,
          vector := fun _ => mmd.compute_stat_est_multiplier sqrt *
            (mmd.running_statistic mmd.whole_kernel mmd.num_blocks).1 } := by
    intro method null_term var_est_multiplier
    simp only [compute_statistic_and_variance, Bool.false_eq_true, if_false,
      (running_estimate_statistic _ null_term _ _).1, running_statistic_method]
    rfl
  refine ⟨?_, ?_, ?_⟩
  · rw [hA, hA]
  · cases multiple_kernels
    · rw [hB0, hB0]
    · rw [hB, hB]
  · rw [hA, hB]

end CLinearTimeMMD

/-! ## The tests of `LinearTimeMMD_unittest.cc`, over the reals -/

/-- An interval for `exp(-t)`, `0 <= t <= 1`, from the first `n` terms of the series. -/
theorem exp_neg_interval (t lo hi : ℝ) (n : ℕ) (hn : 0 < n) (ht0 : 0 ≤ t) (ht1 : t ≤ 1)
    (hlo : lo ≤ (∑ m in Finset.range n, (-t) ^ m / (m.factorial : ℝ)) -
      t ^ n * ((n.succ : ℝ) / ((n.factorial : ℝ) * n)))
    (hhi : (∑ m in Finset.range n, (-t) ^ m / (m.factorial : ℝ)) +
      t ^ n * ((n.succ : ℝ) / ((n.factorial : ℝ) * n)) ≤ hi) :
    lo ≤ Real.exp (-t) ∧ Real.exp (-t) ≤ hi := by
  have hx : |(-t)| ≤ 1 := by rw [abs_neg, abs_of_nonneg ht0]; exact ht1
  have h := abs_sub_le_iff.1 (Real.exp_bound hx hn)
  rw [abs_neg, abs_of_nonneg ht0] at h
  exact ⟨by linarith [h.2], by linarith [h.1]⟩

/-- An interval for a power from an interval for its base. -/
theorem pow_interval (u lo hi A B : ℝ) (n : ℕ) (h0 : 0 ≤ lo) (hlo : lo ≤ u) (hhi : u ≤ hi)
    (hA : A ≤ lo ^ n) (hB : hi ^ n ≤ B) : A ≤ u ^ n ∧ u ^ n ≤ B :=
  ⟨le_trans hA (pow_le_pow_left₀ h0 hlo n),
    le_trans (pow_le_pow_left₀ (le_trans h0 hlo) hhi n) hB⟩

theorem exp_neg_27_64 :
    (655816011271501552530835 / 10 ^ 24 : ℝ) ≤ Real.exp (-(27 / 64)) ∧
      Real.exp (-(27 / 64)) ≤ 655816011271501552530895 / 10 ^ 24 :=
  exp_neg_interval (27 / 64) _ _ 18 (by norm_num) (by norm_num) (by norm_num)
    (by norm_num [Finset.sum_range_succ, Nat.factorial])
    (by norm_num [Finset.sum_range_succ, Nat.factorial])

/-- Intervals for `exp(-27/8)`, `exp(-27/2)` and `exp(-243/8)`, the kernel values of the
test `statistic_single_kernel_fixed_unbiased`: the powers 8, 32 and 72 of `exp(-27/64)`. -/
theorem exp_test_single_kernel :
    ((342181183116660346985 / 10 ^ 22 : ℝ) ≤ Real.exp (-(27 / 8)) ∧
      Real.exp (-(27 / 8)) ≤ 342181183116660346986 / 10 ^ 22) ∧
    ((13709590863840843 / 10 ^ 22 : ℝ) ≤ Real.exp (-(27 / 2)) ∧
      Real.exp (-(27 / 2)) ≤ 13709590863840844 / 10 ^ 22) ∧
    ((643139394 / 10 ^ 22 : ℝ) ≤ Real.exp (-(243 / 8)) ∧
      Real.exp (-(243 / 8)) ≤ 643139395 / 10 ^ 22) := by
  have hu := exp_neg_27_64
  have e8 : Real.exp (-(27 / 8)) = Real.exp (-(27 / 64)) ^ 8 := by
    rw [← Real.exp_nat_mul]; norm_num
  have e32 : Real.exp (-(27 / 2)) = Real.exp (-(27 / 64)) ^ 32 := by
    rw [← Real.exp_nat_mul]; norm_num
  have e72 : Real.exp (-(243 / 8)) = Real.exp (-(27 / 64)) ^ 72 := by
    rw [← Real.exp_nat_mul]; norm_num
  rw [e8, e32, e72]
  exact ⟨pow_interval _ _ _ _ _ 8 (by norm_num) hu.1 hu.2 (by norm_num) (by norm_num),
    pow_interval _ _ _ _ _ 32 (by norm_num) hu.1 hu.2 (by norm_num) (by norm_num),
    pow_interval _ _ _ _ _ 72 (by norm_num) hu.1 hu.2 (by norm_num) (by norm_num)⟩

namespace CLinearTimeMMD

/-- The statistic of the test `statistic_single_kernel_fixed_unbiased` in kernel values. -/
theorem test_single_kernel_unbiased_closed
    (null_term : ((Nat → ℝ) → (Nat → ℝ) → ℝ) → Nat → ℝ) (var_est_multiplier : ℝ) :
    compute_statistic Real.sqrt (test_single_kernel_fixed Real.exp .S_UNBIASED)
        null_term var_est_multiplier =
      (3 / 2) * Real.exp (-(27 / 8)) - Real.exp (-(27 / 2)) -
        (1 / 2) * Real.exp (-(243 / 8)) := by
  rw [compute_statistic_closed]
  simp only [statistic_for, compute_stat_est_multiplier, block_average,
    block_estimate, num_blocks, block_p, block_q, whole_kernel, test_single_kernel_fixed,
    unbiased_estimate, gaussian_kernel, test_stream, List.map, List.sum_cons, List.sum_nil,
    Finset.sum_range_succ, Finset.sum_range_zero]
  norm_num
  ring

/-- The statistic of the test `statistic_single_kernel_fixed_unbiased` is within `1E-15`
of the value `0.051325806508381` the test expects. -/
theorem test_single_kernel_unbiased_value
    (null_term : ((Nat → ℝ) → (Nat → ℝ) → ℝ) → Nat → ℝ) (var_est_multiplier : ℝ) :
    |compute_statistic Real.sqrt (test_single_kernel_fixed Real.exp .S_UNBIASED)
        null_term var_est_multiplier - 0.051325806508381| ≤ 1e-15 := by
  obtain ⟨b8, b32, b72⟩ := exp_test_single_kernel
  rw [test_single_kernel_unbiased_closed, abs_le]
  constructor
  · norm_num
    linarith [b8.1, b8.2, b32.1, b32.2, b72.1, b72.2]
  · norm_num
    linarith [b8.1, b8.2, b32.1, b32.2, b72.1, b72.2]

/-- The statistic of the test `statistic_single_kernel_fixed_incomplete` in kernel values. -/
theorem test_single_kernel_incomplete_closed
    (null_term : ((Nat → ℝ) → (Nat → ℝ) → ℝ) → Nat → ℝ) (var_est_multiplier : ℝ) :
    compute_statistic Real.sqrt (test_single_kernel_fixed Real.exp .S_INCOMPLETE)
        null_term var_est_multiplier =
      Real.exp (-(27 / 8)) - Real.exp (-(243 / 8)) := by
  rw [compute_statistic_closed]
  simp only [statistic_for, compute_stat_est_multiplier, block_average,
    block_estimate, num_blocks, block_p, block_q, whole_kernel, test_single_kernel_fixed,
    incomplete_estimate, gaussian_kernel, test_stream, List.map, List.sum_cons, List.sum_nil,
    Finset.sum_range_succ, Finset.sum_range_zero]
  norm_num
  ring

/-- The statistic of the test `statistic_single_kernel_fixed_incomplete` is within `1E-15`
of the value `0.034218118311602` the test expects. -/
theorem test_single_kernel_incomplete_value
    (null_term : ((Nat → ℝ) → (Nat → ℝ) → ℝ) → Nat → ℝ) (var_est_multiplier : ℝ) :
    |compute_statistic Real.sqrt (test_single_kernel_fixed Real.exp .S_INCOMPLETE)
        null_term var_est_multiplier - 0.034218118311602| ≤ 1e-15 := by
  obtain ⟨b8, _, b72⟩ := exp_test_single_kernel
  rw [test_single_kernel_incomplete_closed, abs_le]
  constructor
  · norm_num
    linarith [b8.1, b8.2, b72.1, b72.2]
  · norm_num
    linarith [b8.1, b8.2, b72.1, b72.2]

/-- The factor of the statistic in the tests with `m = n = 8` is `sqrt(64/16) = 2`. -/
theorem test_multiple_kernels_multiplier (method : ENullVarEstMethod) :
    compute_stat_est_multiplier Real.sqrt (test_multiple_kernels_fixed Real.exp method) = 2 := by
  simp only [compute_stat_est_multiplier, test_multiple_kernels_fixed]
  rw [Real.sqrt_eq_iff_mul_self_eq (by norm_num) (by norm_num)]
  norm_num

/-- The average over the four blocks of the test `statistic_and_Q_fixed` for a Gaussian
kernel of width `w`: each block adds the kernel values of its pair of `p` samples and of
its pair of `q` samples, and takes off half the sum of its four mixed kernel values. -/
theorem test_multiple_kernels_block_average (w : ℝ) (method : ENullVarEstMethod) :
    block_average (test_multiple_kernels_fixed Real.exp method) (gaussian_kernel Real.exp w 3) =
      (4 * Real.exp (-(27 / 529 / w)) + 4 * Real.exp (-(27 / 2209 / w)) -
        (1 / 2) * (
          Real.exp (-(837504 / 1168561 / w)) +
          Real.exp (-(1070379 / 1168561 / w)) +
          Real.exp (-(450459 / 1168561 / w)) +
          Real.exp (-(624960 / 1168561 / w)) +
          Real.exp (-(443520 / 1168561 / w)) +
          Real.exp (-(616779 / 1168561 / w)) +
          Real.exp (-(178299 / 1168561 / w)) +
          Real.exp (-(293184 / 1168561 / w)) +
          Real.exp (-(173952 / 1168561 / w)) +
          Real.exp (-(287595 / 1168561 / w)) +
          Real.exp (-(30555 / 1168561 / w)) +
          Real.exp (-(85824 / 1168561 / w)) +
          Real.exp (-(28800 / 1168561 / w)) +
          Real.exp (-(82827 / 1168561 / w)) +
          Real.exp (-(7227 / 1168561 / w)) +
          Real.exp (-(2880 / 1168561 / w)))) / 4 := by
  simp only [block_average, block_estimate, num_blocks, block_p, block_q,
    test_multiple_kernels_fixed, unbiased_estimate, gaussian_kernel, test_stream,
    Finset.sum_range_succ, Finset.sum_range_zero]
  norm_num
  ring_nf

set_option maxHeartbeats 4000000 in
/-- The statistic of the first sub-kernel (width 2048) in the tests `statistic_and_Q_fixed`
and `statistic_and_variance_multiple_kernels_fixed_*` is within `1E-15` of the value
`0.000482892712133` these tests expect, under every null variance estimation method. -/
theorem test_multiple_kernels_first_statistic (method : ENullVarEstMethod) :
    |statistic_for Real.sqrt (test_multiple_kernels_fixed Real.exp method)
        (gaussian_kernel Real.exp 2048 3) - 0.000482892712133| ≤ 1e-15 := by
  have hs : compute_stat_est_multiplier Real.sqrt
      (test_multiple_kernels_fixed Real.exp method) = 2 :=
    test_multiple_kernels_multiplier method
  have h0 := exp_neg_interval (27 / 529 / 2048) (999975078583227976450825 / 10 ^ 24)
    (999975078583227976450826 / 10 ^ 24) 6 (by norm_num) (by norm_num) (by norm_num)
    (by simp only [Finset.sum_range_succ, Finset.sum_range_zero, Nat.factorial]; norm_num)
    (by simp only [Finset.sum_range_succ, Finset.sum_range_zero, Nat.factorial]; norm_num)
  have h1 := exp_neg_interval (27 / 2209 / 2048) (999994031890262836689306 / 10 ^ 24)
    (999994031890262836689307 / 10 ^ 24) 6 (by norm_num) (by norm_num) (by norm_num)
    (by simp only [Finset.sum_range_succ, Finset.sum_range_zero, Nat.factorial]; norm_num)
    (by simp only [Finset.sum_range_succ, Finset.sum_range_zero, Nat.factorial]; norm_num)
  have h2 := exp_neg_interval (837504 / 1168561 / 2048) (999650111586317893508639 / 10 ^ 24)
    (999650111586317893508646 / 10 ^ 24) 6 (by norm_num) (by norm_num) (by norm_num)
    (by simp only [Finset.sum_range_succ, Finset.sum_range_zero, Nat.factorial]; norm_num)
    (by simp only [Finset.sum_range_succ, Finset.sum_range_zero, Nat.factorial]; norm_num)
  have h3 := exp_neg_interval (1070379 / 1168561 / 2048) (999552843937782876969742 / 10 ^ 24)
    (999552843937782876969769 / 10 ^ 24) 6 (by norm_num) (by norm_num) (by norm_num)
    (by simp only [Finset.sum_range_succ, Finset.sum_range_zero, Nat.factorial]; norm_num)
    (by simp only [Finset.sum_range_succ, Finset.sum_range_zero, Nat.factorial]; norm_num)
  have h4 := exp_neg_interval (450459 / 1168561 / 2048) (999811794176816863798549 / 10 ^ 24)
    (999811794176816863798550 / 10 ^ 24) 6 (by norm_num) (by norm_num) (by norm_num)
    (by simp only [Finset.sum_range_succ, Finset.sum_range_zero, Nat.factorial]; norm_num)
    (by simp only [Finset.sum_range_succ, Finset.sum_range_zero, Nat.factorial]; norm_num)
  have h5 := exp_neg_interval (624960 / 1168561 / 2048) (999738895607976367818345 / 10 ^ 24)
    (999738895607976367818347 / 10 ^ 24) 6 (by norm_num) (by norm_num) (by norm_num)
    (by simp only [Finset.sum_range_succ, Finset.sum_range_zero, Nat.factorial]; norm_num)
    (by simp only [Finset.sum_range_succ, Finset.sum_range_zero, Nat.factorial]; norm_num)
  have h6 := exp_neg_interval (443520 / 1168561 / 2048) (999814693084814718877179 / 10 ^ 24)
    (999814693084814718877180 / 10 ^ 24) 6 (by norm_num) (by norm_num) (by norm_num)
    (by simp only [Finset.sum_range_succ, Finset.sum_range_zero, Nat.factorial]; norm_num)
    (by simp only [Finset.sum_range_succ, Finset.sum_range_zero, Nat.factorial]; norm_num)
  have h7 := exp_neg_interval (616779 / 1168561 / 2048) (999742313138355164478664 / 10 ^ 24)
    (999742313138355164478666 / 10 ^ 24) 6 (by norm_num) (by norm_num) (by norm_num)
    (by simp only [Finset.sum_range_succ, Finset.sum_range_zero, Nat.factorial]; norm_num)
    (by simp only [Finset.sum_range_succ, Finset.sum_range_zero, Nat.factorial]; norm_num)
  have h8 := exp_neg_interval (178299 / 1168561 / 2048) (999925500837694596544073 / 10 ^ 24)
    (999925500837694596544074 / 10 ^ 24) 6 (by norm_num) (by norm_num) (by norm_num)
    (by simp only [Finset.sum_range_succ, Finset.sum_range_zero, Nat.factorial]; norm_num)
    (by simp only [Finset.sum_range_succ, Finset.sum_range_zero, Nat.factorial]; norm_num)
  have h9 := exp_neg_interval (293184 / 1168561 / 2048) (999877501061924306633601 / 10 ^ 24)
    (999877501061924306633602 / 10 ^ 24) 6 (by norm_num) (by norm_num) (by norm_num)
    (by simp only [Finset.sum_range_succ, Finset.sum_range_zero, Nat.factorial]; norm_num)
    (by simp only [Finset.sum_range_succ, Finset.sum_range_zero, Nat.factorial]; norm_num)
  have h10 := exp_neg_interval (173952 / 1168561 / 2048) (999927317090669378278175 / 10 ^ 24)
    (999927317090669378278176 / 10 ^ 24) 6 (by norm_num) (by norm_num) (by norm_num)
    (by simp only [Finset.sum_range_succ, Finset.sum_range_zero, Nat.factorial]; norm_num)
    (by simp only [Finset.sum_range_succ, Finset.sum_range_zero, Nat.factorial]; norm_num)
  have h11 := exp_neg_interval (287595 / 1168561 / 2048) (999879836132829785295830 / 10 ^ 24)
    (999879836132829785295831 / 10 ^ 24) 6 (by norm_num) (by norm_num) (by norm_num)
    (by simp only [Finset.sum_range_succ, Finset.sum_range_zero, Nat.factorial]; norm_num)
    (by simp only [Finset.sum_range_succ, Finset.sum_range_zero, Nat.factorial]; norm_num)
  have h12 := exp_neg_interval (30555 / 1168561 / 2048) (999987232726102189108500 / 10 ^ 24)
    (999987232726102189108501 / 10 ^ 24) 6 (by norm_num) (by norm_num) (by norm_num)
    (by simp only [Finset.sum_range_succ, Finset.sum_range_zero, Nat.factorial]; norm_num)
    (by simp only [Finset.sum_range_succ, Finset.sum_range_zero, Nat.factorial]; norm_num)
  have h13 := exp_neg_interval (85824 / 1168561 / 2048) (999964139228846171999938 / 10 ^ 24)
    (999964139228846171999939 / 10 ^ 24) 6 (by norm_num) (by norm_num) (by norm_num)
    (by simp only [Finset.sum_range_succ, Finset.sum_range_zero, Nat.factorial]; norm_num)
    (by simp only [Finset.sum_range_succ, Finset.sum_range_zero, Nat.factorial]; norm_num)
  have h14 := exp_neg_interval (28800 / 1168561 / 2048) (999987966040809119308580 / 10 ^ 24)
    (999987966040809119308581 / 10 ^ 24) 6 (by norm_num) (by norm_num) (by norm_num)
    (by simp only [Finset.sum_range_succ, Finset.sum_range_zero, Nat.factorial]; norm_num)
    (by simp only [Finset.sum_range_succ, Finset.sum_range_zero, Nat.factorial]; norm_num)
  have h15 := exp_neg_interval (82827 / 1168561 / 2048) (999965391476135453325145 / 10 ^ 24)
    (999965391476135453325146 / 10 ^ 24) 6 (by norm_num) (by norm_num) (by norm_num)
    (by simp only [Finset.sum_range_succ, Finset.sum_range_zero, Nat.factorial]; norm_num)
    (by simp only [Finset.sum_range_succ, Finset.sum_range_zero, Nat.factorial]; norm_num)
  have h16 := exp_neg_interval (7227 / 1168561 / 2048) (999996980214755048939221 / 10 ^ 24)
    (999996980214755048939222 / 10 ^ 24) 6 (by norm_num) (by norm_num) (by norm_num)
    (by simp only [Finset.sum_range_succ, Finset.sum_range_zero, Nat.factorial]; norm_num)
    (by simp only [Finset.sum_range_succ, Finset.sum_range_zero, Nat.factorial]; norm_num)
  have h17 := exp_neg_interval (2880 / 1168561 / 2048) (999998796597564134441784 / 10 ^ 24)
    (999998796597564134441785 / 10 ^ 24) 6 (by norm_num) (by norm_num) (by norm_num)
    (by simp only [Finset.sum_range_succ, Finset.sum_range_zero, Nat.factorial]; norm_num)
    (by simp only [Finset.sum_range_succ, Finset.sum_range_zero, Nat.factorial]; norm_num)
  rw [statistic_for, hs, test_multiple_kernels_block_average, abs_le]
  constructor
  · norm_num
    linarith [h0.1, h0.2, h1.1, h1.2, h2.1, h2.2, h3.1, h3.2, h4.1, h4.2, h5.1, h5.2, h6.1,
      h6.2, h7.1, h7.2, h8.1, h8.2, h9.1, h9.2, h10.1, h10.2, h11.1, h11.2, h12.1, h12.2,
      h13.1, h13.2, h14.1, h14.2, h15.1, h15.2, h16.1, h16.2, h17.1, h17.2]
  · norm_num
    linarith [h0.1, h0.2, h1.1, h1.2, h2.1, h2.2, h3.1, h3.2, h4.1, h4.2, h5.1, h5.2, h6.1,
      h6.2, h7.1, h7.2, h8.1, h8.2, h9.1, h9.2, h10.1, h10.2, h11.1, h11.2, h12.1, h12.2,
      h13.1, h13.2, h14.1, h14.2, h15.1, h15.2, h16.1, h16.2, h17.1, h17.2]

set_option maxHeartbeats 4000000 in
/-- The statistic of the second sub-kernel (width 8192) in the tests `statistic_and_Q_fixed`
and `statistic_and_variance_multiple_kernels_fixed_*` is within `1E-15` of the value
`0.000120736411855` these tests expect, under every null variance estimation method. -/
theorem test_multiple_kernels_second_statistic (method : ENullVarEstMethod) :
    |statistic_for Real.sqrt (test_multiple_kernels_fixed Real.exp method)
        (gaussian_kernel Real.exp 8192 3) - 0.000120736411855| ≤ 1e-15 := by
  have hs : compute_stat_est_multiplier Real.sqrt
      (test_multiple_kernels_fixed Real.exp method) = 2 :=
    test_multiple_kernels_multiplier method
  have h0 := exp_neg_interval (27 / 529 / 8192) (999993769587580177583105 / 10 ^ 24)
    (999993769587580177583106 / 10 ^ 24) 6 (by norm_num) (by norm_num) (by norm_num)
    (by simp only [Finset.sum_range_succ, Finset.sum_range_zero, Nat.factorial]; norm_num)
    (by simp only [Finset.sum_range_succ, Finset.sum_range_zero, Nat.factorial]; norm_num)
  have h1 := exp_neg_interval (27 / 2209 / 8192) (999998507969226478750116 / 10 ^ 24)
    (999998507969226478750117 / 10 ^ 24) 6 (by norm_num) (by norm_num) (by norm_num)
    (by simp only [Finset.sum_range_succ, Finset.sum_range_zero, Nat.factorial]; norm_num)
    (by simp only [Finset.sum_range_succ, Finset.sum_range_zero, Nat.factorial]; norm_num)
  have h2 := exp_neg_interval (837504 / 1168561 / 8192) (999912516417183109877677 / 10 ^ 24)
    (999912516417183109877678 / 10 ^ 24) 6 (by norm_num) (by norm_num) (by norm_num)
    (by simp only [Finset.sum_range_succ, Finset.sum_range_zero, Nat.factorial]; norm_num)
    (by simp only [Finset.sum_range_succ, Finset.sum_range_zero, Nat.factorial]; norm_num)
  have h3 := exp_neg_interval (1070379 / 1168561 / 8192) (999888192234378706580033 / 10 ^ 24)
    (999888192234378706580034 / 10 ^ 24) 6 (by norm_num) (by norm_num) (by norm_num)
    (by simp only [Finset.sum_range_succ, Finset.sum_range_zero, Nat.factorial]; norm_num)
    (by simp only [Finset.sum_range_succ, Finset.sum_range_zero, Nat.factorial]; norm_num)
  have h4 := exp_neg_interval (450459 / 1168561 / 8192) (999952945223080354717529 / 10 ^ 24)
    (999952945223080354717530 / 10 ^ 24) 6 (by norm_num) (by norm_num) (by norm_num)
    (by simp only [Finset.sum_range_succ, Finset.sum_range_zero, Nat.factorial]; norm_num)
    (by simp only [Finset.sum_range_succ, Finset.sum_range_zero, Nat.factorial]; norm_num)
  have h5 := exp_neg_interval (624960 / 1168561 / 8192) (999934717509566972856369 / 10 ^ 24)
    (999934717509566972856370 / 10 ^ 24) 6 (by norm_num) (by norm_num) (by norm_num)
    (by simp only [Finset.sum_range_succ, Finset.sum_range_zero, Nat.factorial]; norm_num)
    (by simp only [Finset.sum_range_succ, Finset.sum_range_zero, Nat.factorial]; norm_num)
  have h6 := exp_neg_interval (443520 / 1168561 / 8192) (999953670051606946984853 / 10 ^ 24)
    (999953670051606946984854 / 10 ^ 24) 6 (by norm_num) (by norm_num) (by norm_num)
    (by simp only [Finset.sum_range_succ, Finset.sum_range_zero, Nat.factorial]; norm_num)
    (by simp only [Finset.sum_range_succ, Finset.sum_range_zero, Nat.factorial]; norm_num)
  have h7 := exp_neg_interval (616779 / 1168561 / 8192) (999935572058416739614304 / 10 ^ 24)
    (999935572058416739614305 / 10 ^ 24) 6 (by norm_num) (by norm_num) (by norm_num)
    (by simp only [Finset.sum_range_succ, Finset.sum_range_zero, Nat.factorial]; norm_num)
    (by simp only [Finset.sum_range_succ, Finset.sum_range_zero, Nat.factorial]; norm_num)
  have h8 := exp_neg_interval (178299 / 1168561 / 8192) (999981374689076799788576 / 10 ^ 24)
    (999981374689076799788577 / 10 ^ 24) 6 (by norm_num) (by norm_num) (by norm_num)
    (by simp only [Finset.sum_range_succ, Finset.sum_range_zero, Nat.factorial]; norm_num)
    (by simp only [Finset.sum_range_succ, Finset.sum_range_zero, Nat.factorial]; norm_num)
  have h9 := exp_neg_interval (293184 / 1168561 / 8192) (999969373858568994122618 / 10 ^ 24)
    (999969373858568994122619 / 10 ^ 24) 6 (by norm_num) (by norm_num) (by norm_num)
    (by simp only [Finset.sum_range_succ, Finset.sum_range_zero, Nat.factorial]; norm_num)
    (by simp only [Finset.sum_range_succ, Finset.sum_range_zero, Nat.factorial]; norm_num)
  have h10 := exp_neg_interval (173952 / 1168561 / 8192) (999981828777383347482902 / 10 ^ 24)
    (999981828777383347482903 / 10 ^ 24) 6 (by norm_num) (by norm_num) (by norm_num)
    (by simp only [Finset.sum_range_succ, Finset.sum_range_zero, Nat.factorial]; norm_num)
    (by simp only [Finset.sum_range_succ, Finset.sum_range_zero, Nat.factorial]; norm_num)
  have h11 := exp_neg_interval (287595 / 1168561 / 8192) (999969957679423022072271 / 10 ^ 24)
    (999969957679423022072272 / 10 ^ 24) 6 (by norm_num) (by norm_num) (by norm_num)
    (by simp only [Finset.sum_range_succ, Finset.sum_range_zero, Nat.factorial]; norm_num)
    (by simp only [Finset.sum_range_succ, Finset.sum_range_zero, Nat.factorial]; norm_num)
  have h12 := exp_neg_interval (30555 / 1168561 / 8192) (999996808166243875704770 / 10 ^ 24)
    (999996808166243875704771 / 10 ^ 24) 6 (by norm_num) (by norm_num) (by norm_num)
    (by simp only [Finset.sum_range_succ, Finset.sum_range_zero, Nat.factorial]; norm_num)
    (by simp only [Finset.sum_range_succ, Finset.sum_range_zero, Nat.factorial]; norm_num)
  have h13 := exp_neg_interval (85824 / 1168561 / 8192) (999991034686646998325692 / 10 ^ 24)
    (999991034686646998325693 / 10 ^ 24) 6 (by norm_num) (by norm_num) (by norm_num)
    (by simp only [Finset.sum_range_succ, Finset.sum_range_zero, Nat.factorial]; norm_num)
    (by simp only [Finset.sum_range_succ, Finset.sum_range_zero, Nat.factorial]; norm_num)
  have h14 := exp_neg_interval (28800 / 1168561 / 8192) (999996991496625668227318 / 10 ^ 24)
    (999996991496625668227319 / 10 ^ 24) 6 (by norm_num) (by norm_num) (by norm_num)
    (by simp only [Finset.sum_range_succ, Finset.sum_range_zero, Nat.factorial]; norm_num)
    (by simp only [Finset.sum_range_succ, Finset.sum_range_zero, Nat.factorial]; norm_num)
  have h15 := exp_neg_interval (82827 / 1168561 / 8192) (999991347756742540968811 / 10 ^ 24)
    (999991347756742540968812 / 10 ^ 24) 6 (by norm_num) (by norm_num) (by norm_num)
    (by simp only [Finset.sum_range_succ, Finset.sum_range_zero, Nat.factorial]; norm_num)
    (by simp only [Finset.sum_range_succ, Finset.sum_range_zero, Nat.factorial]; norm_num)
  have h16 := exp_neg_interval (7227 / 1168561 / 8192) (999999245052833844829555 / 10 ^ 24)
    (999999245052833844829556 / 10 ^ 24) 6 (by norm_num) (by norm_num) (by norm_num)
    (by simp only [Finset.sum_range_succ, Finset.sum_range_zero, Nat.factorial]; norm_num)
    (by simp only [Finset.sum_range_succ, Finset.sum_range_zero, Nat.factorial]; norm_num)
  have h17 := exp_neg_interval (2880 / 1168561 / 8192) (999999699149255266881766 / 10 ^ 24)
    (999999699149255266881767 / 10 ^ 24) 6 (by norm_num) (by norm_num) (by norm_num)
    (by simp only [Finset.sum_range_succ, Finset.sum_range_zero, Nat.factorial]; norm_num)
    (by simp only [Finset.sum_range_succ, Finset.sum_range_zero, Nat.factorial]; norm_num)
  rw [statistic_for, hs, test_multiple_kernels_block_average, abs_le]
  constructor
  · norm_num
    linarith [h0.1, h0.2, h1.1, h1.2, h2.1, h2.2, h3.1, h3.2, h4.1, h4.2, h5.1, h5.2, h6.1,
      h6.2, h7.1, h7.2, h8.1, h8.2, h9.1, h9.2, h10.1, h10.2, h11.1, h11.2, h12.1, h12.2,
      h13.1, h13.2, h14.1, h14.2, h15.1, h15.2, h16.1, h16.2, h17.1, h17.2]
  · norm_num
    linarith [h0.1, h0.2, h1.1, h1.2, h2.1, h2.2, h3.1, h3.2, h4.1, h4.2, h5.1, h5.2, h6.1,
      h6.2, h7.1, h7.2, h8.1, h8.2, h9.1, h9.2, h10.1, h10.2, h11.1, h11.2, h12.1, h12.2,
      h13.1, h13.2, h14.1, h14.2, h15.1, h15.2, h16.1, h16.2, h17.1, h17.2]

set_option maxHeartbeats 4000000 in
/-- The statistic of the third sub-kernel (width 32768) in the tests `statistic_and_Q_fixed`
and `statistic_and_variance_multiple_kernels_fixed_*` is within `1E-15` of the value
`0.000030184930162` these tests expect, under every null variance estimation method. -/
theorem test_multiple_kernels_third_statistic (method : ENullVarEstMethod) :
    |statistic_for Real.sqrt (test_multiple_kernels_fixed Real.exp method)
        (gaussian_kernel Real.exp 32768 3) - 0.000030184930162| ≤ 1e-15 := by
  have hs : compute_stat_est_multiplier Real.sqrt
      (test_multiple_kernels_fixed Real.exp method) = 2 :=
    test_multiple_kernels_multiplier method
  have h0 := exp_neg_interval (27 / 529 / 32768) (999998442393255840020565 / 10 ^ 24)
    (999998442393255840020566 / 10 ^ 24) 6 (by norm_num) (by norm_num) (by norm_num)
    (by simp only [Finset.sum_range_succ, Finset.sum_range_zero, Nat.factorial]; norm_num)
    (by simp only [Finset.sum_range_succ, Finset.sum_range_zero, Nat.factorial]; norm_num)
  have h1 := exp_neg_interval (27 / 2209 / 32768) (999999626992097917396903 / 10 ^ 24)
    (999999626992097917396904 / 10 ^ 24) 6 (by norm_num) (by norm_num) (by norm_num)
    (by simp only [Finset.sum_range_succ, Finset.sum_range_zero, Nat.factorial]; norm_num)
    (by simp only [Finset.sum_range_succ, Finset.sum_range_zero, Nat.factorial]; norm_num)
  have h2 := exp_neg_interval (837504 / 1168561 / 32768) (999978128386755041174826 / 10 ^ 24)
    (999978128386755041174827 / 10 ^ 24) 6 (by norm_num) (by norm_num) (by norm_num)
    (by simp only [Finset.sum_range_succ, Finset.sum_range_zero, Nat.factorial]; norm_num)
    (by simp only [Finset.sum_range_succ, Finset.sum_range_zero, Nat.factorial]; norm_num)
  have h3 := exp_neg_interval (1070379 / 1168561 / 32768) (999972046886551691218727 / 10 ^ 24)
    (999972046886551691218728 / 10 ^ 24) 6 (by norm_num) (by norm_num) (by norm_num)
    (by simp only [Finset.sum_range_succ, Finset.sum_range_zero, Nat.factorial]; norm_num)
    (by simp only [Finset.sum_range_succ, Finset.sum_range_zero, Nat.factorial]; norm_num)
  have h4 := exp_neg_interval (450459 / 1168561 / 32768) (999988236098187637897396 / 10 ^ 24)
    (999988236098187637897397 / 10 ^ 24) 6 (by norm_num) (by norm_num) (by norm_num)
    (by simp only [Finset.sum_range_succ, Finset.sum_range_zero, Nat.factorial]; norm_num)
    (by simp only [Finset.sum_range_succ, Finset.sum_range_zero, Nat.factorial]; norm_num)
  have h5 := exp_neg_interval (624960 / 1168561 / 32768) (999983678977832443830322 / 10 ^ 24)
    (999983678977832443830323 / 10 ^ 24) 6 (by norm_num) (by norm_num) (by norm_num)
    (by simp only [Finset.sum_range_succ, Finset.sum_range_zero, Nat.factorial]; norm_num)
    (by simp only [Finset.sum_range_succ, Finset.sum_range_zero, Nat.factorial]; norm_num)
  have h6 := exp_neg_interval (443520 / 1168561 / 32768) (999988417311665287071122 / 10 ^ 24)
    (999988417311665287071123 / 10 ^ 24) 6 (by norm_num) (by norm_num) (by norm_num)
    (by simp only [Finset.sum_range_succ, Finset.sum_range_zero, Nat.factorial]; norm_num)
    (by simp only [Finset.sum_range_succ, Finset.sum_range_zero, Nat.factorial]; norm_num)
  have h7 := exp_neg_interval (616779 / 1168561 / 32768) (999983892625437090940281 / 10 ^ 24)
    (999983892625437090940282 / 10 ^ 24) 6 (by norm_num) (by norm_num) (by norm_num)
    (by simp only [Finset.sum_range_succ, Finset.sum_range_zero, Nat.factorial]; norm_num)
    (by simp only [Finset.sum_range_succ, Finset.sum_range_zero, Nat.factorial]; norm_num)
  have h8 := exp_neg_interval (178299 / 1168561 / 32768) (999995343639746764692925 / 10 ^ 24)
    (999995343639746764692926 / 10 ^ 24) 6 (by norm_num) (by norm_num) (by norm_num)
    (by simp only [Finset.sum_range_succ, Finset.sum_range_zero, Nat.factorial]; norm_num)
    (by simp only [Finset.sum_range_succ, Finset.sum_range_zero, Nat.factorial]; norm_num)
  have h9 := exp_neg_interval (293184 / 1168561 / 32768) (999992343376706877011572 / 10 ^ 24)
    (999992343376706877011573 / 10 ^ 24) 6 (by norm_num) (by norm_num) (by norm_num)
    (by simp only [Finset.sum_range_succ, Finset.sum_range_zero, Nat.factorial]; norm_num)
    (by simp only [Finset.sum_range_succ, Finset.sum_range_zero, Nat.factorial]; norm_num)
  have h10 := exp_neg_interval (173952 / 1168561 / 32768) (999995457163389883923477 / 10 ^ 24)
    (999995457163389883923478 / 10 ^ 24) 6 (by norm_num) (by norm_num) (by norm_num)
    (by simp only [Finset.sum_range_succ, Finset.sum_range_zero, Nat.factorial]; norm_num)
    (by simp only [Finset.sum_range_succ, Finset.sum_range_zero, Nat.factorial]; norm_num)
  have h11 := exp_neg_interval (287595 / 1168561 / 32768) (999992489335241051512544 / 10 ^ 24)
    (999992489335241051512545 / 10 ^ 24) 6 (by norm_num) (by norm_num) (by norm_num)
    (by simp only [Finset.sum_range_succ, Finset.sum_range_zero, Nat.factorial]; norm_num)
    (by simp only [Finset.sum_range_succ, Finset.sum_range_zero, Nat.factorial]; norm_num)
  have h12 := exp_neg_interval (30555 / 1168561 / 32768) (999999202040605860642241 / 10 ^ 24)
    (999999202040605860642242 / 10 ^ 24) 6 (by norm_num) (by norm_num) (by norm_num)
    (by simp only [Finset.sum_range_succ, Finset.sum_range_zero, Nat.factorial]; norm_num)
    (by simp only [Finset.sum_range_succ, Finset.sum_range_zero, Nat.factorial]; norm_num)
  have h13 := exp_neg_interval (85824 / 1168561 / 32768) (999997758664126381093404 / 10 ^ 24)
    (999997758664126381093405 / 10 ^ 24) 6 (by norm_num) (by norm_num) (by norm_num)
    (by simp only [Finset.sum_range_succ, Finset.sum_range_zero, Nat.factorial]; norm_num)
    (by simp only [Finset.sum_range_succ, Finset.sum_range_zero, Nat.factorial]; norm_num)
  have h14 := exp_neg_interval (28800 / 1168561 / 32768) (999999247873307875640794 / 10 ^ 24)
    (999999247873307875640795 / 10 ^ 24) 6 (by norm_num) (by norm_num) (by norm_num)
    (by simp only [Finset.sum_range_succ, Finset.sum_range_zero, Nat.factorial]; norm_num)
    (by simp only [Finset.sum_range_succ, Finset.sum_range_zero, Nat.factorial]; norm_num)
  have h15 := exp_neg_interval (82827 / 1168561 / 32768) (999997836932167351689937 / 10 ^ 24)
    (999997836932167351689938 / 10 ^ 24) 6 (by norm_num) (by norm_num) (by norm_num)
    (by simp only [Finset.sum_range_succ, Finset.sum_range_zero, Nat.factorial]; norm_num)
    (by simp only [Finset.sum_range_succ, Finset.sum_range_zero, Nat.factorial]; norm_num)
  have h16 := exp_neg_interval (7227 / 1168561 / 32768) (999999811263155028819137 / 10 ^ 24)
    (999999811263155028819138 / 10 ^ 24) 6 (by norm_num) (by norm_num) (by norm_num)
    (by simp only [Finset.sum_range_succ, Finset.sum_range_zero, Nat.factorial]; norm_num)
    (by simp only [Finset.sum_range_succ, Finset.sum_range_zero, Nat.factorial]; norm_num)
  have h17 := exp_neg_interval (2880 / 1168561 / 32768) (999999924787305331296708 / 10 ^ 24)
    (999999924787305331296709 / 10 ^ 24) 6 (by norm_num) (by norm_num) (by norm_num)
    (by simp only [Finset.sum_range_succ, Finset.sum_range_zero, Nat.factorial]; norm_num)
    (by simp only [Finset.sum_range_succ, Finset.sum_range_zero, Nat.factorial]; norm_num)
  rw [statistic_for, hs, test_multiple_kernels_block_average, abs_le]
  constructor
  · norm_num
    linarith [h0.1, h0.2, h1.1, h1.2, h2.1, h2.2, h3.1, h3.2, h4.1, h4.2, h5.1, h5.2, h6.1,
      h6.2, h7.1, h7.2, h8.1, h8.2, h9.1, h9.2, h10.1, h10.2, h11.1, h11.2, h12.1, h12.2,
      h13.1, h13.2, h14.1, h14.2, h15.1, h15.2, h16.1, h16.2, h17.1, h17.2]
  · norm_num
    linarith [h0.1, h0.2, h1.1, h1.2, h2.1, h2.2, h3.1, h3.2, h4.1, h4.2, h5.1, h5.2, h6.1,
      h6.2, h7.1, h7.2, h8.1, h8.2, h9.1, h9.2, h10.1, h10.2, h11.1, h11.2, h12.1, h12.2,
      h13.1, h13.2, h14.1, h14.2, h15.1, h15.2, h16.1, h16.2, h17.1, h17.2]

/-- The factor of the statistic in the test with `m = 8` and `n = 12`, `sqrt(96/20)`. -/
theorem test_different_num_samples_multiplier :
    (219089023002066445382 / 10 ^ 20 : ℝ) ≤
        compute_stat_est_multiplier Real.sqrt (test_different_num_samples Real.exp) ∧
      compute_stat_est_multiplier Real.sqrt (test_different_num_samples Real.exp) ≤
        219089023002066445383 / 10 ^ 20 := by
  simp only [compute_stat_est_multiplier, test_different_num_samples]
  constructor
  · apply Real.le_sqrt_of_sq_le
    norm_num
  · rw [Real.sqrt_le_left (by norm_num)]
    norm_num

set_option maxHeartbeats 2000000 in
/-- The average over the four blocks of the test
`statistic_and_variance_fixed_multiple_kernels_different_num_samples` (2 samples of `p`
and 3 of `q` per block) for a Gaussian kernel of width `w`. -/
theorem test_different_num_samples_block_average (w : ℝ) :
    block_average (test_different_num_samples Real.exp) (gaussian_kernel Real.exp w 3) =
      (4 * Real.exp (-(27 / 529 / w)) +
        4 * ((2 * Real.exp (-(27 / 3481 / w)) + Real.exp (-(108 / 3481 / w))) / 3) -
        (1 / 3) * (
          Real.exp (-(801360 / 1841449 / w)) +
          Real.exp (-(1029267 / 1841449 / w)) +
          Real.exp (-(1285740 / 1841449 / w)) +
          Real.exp (-(347355 / 1841449 / w)) +
          Real.exp (-(501984 / 1841449 / w)) +
          Real.exp (-(685179 / 1841449 / w)) +
          Real.exp (-(411075 / 1841449 / w)) +
          Real.exp (-(578124 / 1841449 / w)) +
          Real.exp (-(773739 / 1841449 / w)) +
          Real.exp (-(113184 / 1841449 / w)) +
          Real.exp (-(206955 / 1841449 / w)) +
          Real.exp (-(329292 / 1841449 / w)) +
          Real.exp (-(150444 / 1841449 / w)) +
          Real.exp (-(256635 / 1841449 / w)) +
          Real.exp (-(391392 / 1841449 / w)) +
          Real.exp (-(8667 / 1841449 / w)) +
          Real.exp (-(41580 / 1841449 / w)) +
          Real.exp (-(103059 / 1841449 / w)) +
          Real.exp (-(19467 / 1841449 / w)) +
          Real.exp (-(64800 / 1841449 / w)) +
          Real.exp (-(138699 / 1841449 / w)) +
          Real.exp (-(33804 / 1841449 / w)) +
          Real.exp (-(5859 / 1841449 / w)) +
          Real.exp (-(6480 / 1841449 / w)))) / 4 := by
  simp only [block_average, block_estimate, num_blocks, block_p, block_q,
    test_different_num_samples, unbiased_estimate, gaussian_kernel, test_stream,
    Finset.sum_range_succ, Finset.sum_range_zero]
  norm_num
  ring_nf

set_option maxHeartbeats 4000000 in
/-- The statistic of the first sub-kernel (width 2048) in the test
`statistic_and_variance_fixed_multiple_kernels_different_num_samples` (`m = 8`, `n = 12`,
factor `sqrt(96/20)`) is within `1E-15` of the value `0.000329816772926` the test expects. -/
theorem test_different_num_samples_first_statistic :
    |statistic_for Real.sqrt (test_different_num_samples Real.exp)
        (gaussian_kernel Real.exp 2048 3) - 0.000329816772926| ≤ 1e-15 := by
  have h0 := exp_neg_interval (27 / 529 / 2048) (999975078583227976450825 / 10 ^ 24)
    (999975078583227976450826 / 10 ^ 24) 6 (by norm_num) (by norm_num) (by norm_num)
    (by simp only [Finset.sum_range_succ, Finset.sum_range_zero, Nat.factorial]; norm_num)
    (by simp only [Finset.sum_range_succ, Finset.sum_range_zero, Nat.factorial]; norm_num)
  have h1 := exp_neg_interval (27 / 3481 / 2048) (999996212706467993515472 / 10 ^ 24)
    (999996212706467993515473 / 10 ^ 24) 6 (by norm_num) (by norm_num) (by norm_num)
    (by simp only [Finset.sum_range_succ, Finset.sum_range_zero, Nat.factorial]; norm_num)
    (by simp only [Finset.sum_range_succ, Finset.sum_range_zero, Nat.factorial]; norm_num)
  have h2 := exp_neg_interval (108 / 3481 / 2048) (999984850911933310553986 / 10 ^ 24)
    (999984850911933310553987 / 10 ^ 24) 6 (by norm_num) (by norm_num) (by norm_num)
    (by simp only [Finset.sum_range_succ, Finset.sum_range_zero, Nat.factorial]; norm_num)
    (by simp only [Finset.sum_range_succ, Finset.sum_range_zero, Nat.factorial]; norm_num)
  have h3 := exp_neg_interval (801360 / 1841449 / 2048) (999787532810854798011537 / 10 ^ 24)
    (999787532810854798011538 / 10 ^ 24) 6 (by norm_num) (by norm_num) (by norm_num)
    (by simp only [Finset.sum_range_succ, Finset.sum_range_zero, Nat.factorial]; norm_num)
    (by simp only [Finset.sum_range_succ, Finset.sum_range_zero, Nat.factorial]; norm_num)
  have h4 := exp_neg_interval (1029267 / 1841449 / 2048) (999727115330287246761512 / 10 ^ 24)
    (999727115330287246761514 / 10 ^ 24) 6 (by norm_num) (by norm_num) (by norm_num)
    (by simp only [Finset.sum_range_succ, Finset.sum_range_zero, Nat.factorial]; norm_num)
    (by simp only [Finset.sum_range_succ, Finset.sum_range_zero, Nat.factorial]; norm_num)
  have h5 := exp_neg_interval (1285740 / 1841449 / 2048) (999659129452640680854256 / 10 ^ 24)
    (999659129452640680854262 / 10 ^ 24) 6 (by norm_num) (by norm_num) (by norm_num)
    (by simp only [Finset.sum_range_succ, Finset.sum_range_zero, Nat.factorial]; norm_num)
    (by simp only [Finset.sum_range_succ, Finset.sum_range_zero, Nat.factorial]; norm_num)
  have h6 := exp_neg_interval (347355 / 1841449 / 2048) (999907899093052455864857 / 10 ^ 24)
    (999907899093052455864858 / 10 ^ 24) 6 (by norm_num) (by norm_num) (by norm_num)
    (by simp only [Finset.sum_range_succ, Finset.sum_range_zero, Nat.factorial]; norm_num)
    (by simp only [Finset.sum_range_succ, Finset.sum_range_zero, Nat.factorial]; norm_num)
  have h7 := exp_neg_interval (501984 / 1841449 / 2048) (999866902063069862595765 / 10 ^ 24)
    (999866902063069862595766 / 10 ^ 24) 6 (by norm_num) (by norm_num) (by norm_num)
    (by simp only [Finset.sum_range_succ, Finset.sum_range_zero, Nat.factorial]; norm_num)
    (by simp only [Finset.sum_range_succ, Finset.sum_range_zero, Nat.factorial]; norm_num)
  have h8 := exp_neg_interval (685179 / 1841449 / 2048) (999818333459960384457287 / 10 ^ 24)
    (999818333459960384457288 / 10 ^ 24) 6 (by norm_num) (by norm_num) (by norm_num)
    (by simp only [Finset.sum_range_succ, Finset.sum_range_zero, Nat.factorial]; norm_num)
    (by simp only [Finset.sum_range_succ, Finset.sum_range_zero, Nat.factorial]; norm_num)
  have h9 := exp_neg_interval (411075 / 1841449 / 2048) (999891004705606523568910 / 10 ^ 24)
    (999891004705606523568911 / 10 ^ 24) 6 (by norm_num) (by norm_num) (by norm_num)
    (by simp only [Finset.sum_range_succ, Finset.sum_range_zero, Nat.factorial]; norm_num)
    (by simp only [Finset.sum_range_succ, Finset.sum_range_zero, Nat.factorial]; norm_num)
  have h10 := exp_neg_interval (578124 / 1841449 / 2048) (999846715562737885635920 / 10 ^ 24)
    (999846715562737885635921 / 10 ^ 24) 6 (by norm_num) (by norm_num) (by norm_num)
    (by simp only [Finset.sum_range_succ, Finset.sum_range_zero, Nat.factorial]; norm_num)
    (by simp only [Finset.sum_range_succ, Finset.sum_range_zero, Nat.factorial]; norm_num)
  have h11 := exp_neg_interval (773739 / 1841449 / 2048) (999794855305411414693359 / 10 ^ 24)
    (999794855305411414693360 / 10 ^ 24) 6 (by norm_num) (by norm_num) (by norm_num)
    (by simp only [Finset.sum_range_succ, Finset.sum_range_zero, Nat.factorial]; norm_num)
    (by simp only [Finset.sum_range_succ, Finset.sum_range_zero, Nat.factorial]; norm_num)
  have h12 := exp_neg_interval (113184 / 1841449 / 2048) (999969988419070273922640 / 10 ^ 24)
    (999969988419070273922641 / 10 ^ 24) 6 (by norm_num) (by norm_num) (by norm_num)
    (by simp only [Finset.sum_range_succ, Finset.sum_range_zero, Nat.factorial]; norm_num)
    (by simp only [Finset.sum_range_succ, Finset.sum_range_zero, Nat.factorial]; norm_num)
  have h13 := exp_neg_interval (206955 / 1841449 / 2048) (999945125021953636277850 / 10 ^ 24)
    (999945125021953636277851 / 10 ^ 24) 6 (by norm_num) (by norm_num) (by norm_num)
    (by simp only [Finset.sum_range_succ, Finset.sum_range_zero, Nat.factorial]; norm_num)
    (by simp only [Finset.sum_range_succ, Finset.sum_range_zero, Nat.factorial]; norm_num)
  have h14 := exp_neg_interval (329292 / 1841449 / 2048) (999912688274303086138642 / 10 ^ 24)
    (999912688274303086138643 / 10 ^ 24) 6 (by norm_num) (by norm_num) (by norm_num)
    (by simp only [Finset.sum_range_succ, Finset.sum_range_zero, Nat.factorial]; norm_num)
    (by simp only [Finset.sum_range_succ, Finset.sum_range_zero, Nat.factorial]; norm_num)
  have h15 := exp_neg_interval (150444 / 1841449 / 2048) (999960108849507340068676 / 10 ^ 24)
    (999960108849507340068677 / 10 ^ 24) 6 (by norm_num) (by norm_num) (by norm_num)
    (by simp only [Finset.sum_range_succ, Finset.sum_range_zero, Nat.factorial]; norm_num)
    (by simp only [Finset.sum_range_succ, Finset.sum_range_zero, Nat.factorial]; norm_num)
  have h16 := exp_neg_interval (256635 / 1841449 / 2048) (999931952611756127433772 / 10 ^ 24)
    (999931952611756127433773 / 10 ^ 24) 6 (by norm_num) (by norm_num) (by norm_num)
    (by simp only [Finset.sum_range_succ, Finset.sum_range_zero, Nat.factorial]; norm_num)
    (by simp only [Finset.sum_range_succ, Finset.sum_range_zero, Nat.factorial]; norm_num)
  have h17 := exp_neg_interval (391392 / 1841449 / 2048) (999896223322785200253886 / 10 ^ 24)
    (999896223322785200253887 / 10 ^ 24) 6 (by norm_num) (by norm_num) (by norm_num)
    (by simp only [Finset.sum_range_succ, Finset.sum_range_zero, Nat.factorial]; norm_num)
    (by simp only [Finset.sum_range_succ, Finset.sum_range_zero, Nat.factorial]; norm_num)
  have h18 := exp_neg_interval (8667 / 1841449 / 2048) (999997701848527471612106 / 10 ^ 24)
    (999997701848527471612107 / 10 ^ 24) 6 (by norm_num) (by norm_num) (by norm_num)
    (by simp only [Finset.sum_range_succ, Finset.sum_range_zero, Nat.factorial]; norm_num)
    (by simp only [Finset.sum_range_succ, Finset.sum_range_zero, Nat.factorial]; norm_num)
  have h19 := exp_neg_interval (41580 / 1841449 / 2048) (999988974648522764888814 / 10 ^ 24)
    (999988974648522764888815 / 10 ^ 24) 6 (by norm_num) (by norm_num) (by norm_num)
    (by simp only [Finset.sum_range_succ, Finset.sum_range_zero, Nat.factorial]; norm_num)
    (by simp only [Finset.sum_range_succ, Finset.sum_range_zero, Nat.factorial]; norm_num)
  have h20 := exp_neg_interval (103059 / 1841449 / 2048) (999972673101578393155644 / 10 ^ 24)
    (999972673101578393155645 / 10 ^ 24) 6 (by norm_num) (by norm_num) (by norm_num)
    (by simp only [Finset.sum_range_succ, Finset.sum_range_zero, Nat.factorial]; norm_num)
    (by simp only [Finset.sum_range_succ, Finset.sum_range_zero, Nat.factorial]; norm_num)
  have h21 := exp_neg_interval (19467 / 1841449 / 2048) (999994838115765945024712 / 10 ^ 24)
    (999994838115765945024713 / 10 ^ 24) 6 (by norm_num) (by norm_num) (by norm_num)
    (by simp only [Finset.sum_range_succ, Finset.sum_range_zero, Nat.factorial]; norm_num)
    (by simp only [Finset.sum_range_succ, Finset.sum_range_zero, Nat.factorial]; norm_num)
  have h22 := exp_neg_interval (64800 / 1841449 / 2048) (999982817686957575395304 / 10 ^ 24)
    (999982817686957575395305 / 10 ^ 24) 6 (by norm_num) (by norm_num) (by norm_num)
    (by simp only [Finset.sum_range_succ, Finset.sum_range_zero, Nat.factorial]; norm_num)
    (by simp only [Finset.sum_range_succ, Finset.sum_range_zero, Nat.factorial]; norm_num)
  have h23 := exp_neg_interval (138699 / 1841449 / 2048) (999963223051117437003145 / 10 ^ 24)
    (999963223051117437003146 / 10 ^ 24) 6 (by norm_num) (by norm_num) (by norm_num)
    (by simp only [Finset.sum_range_succ, Finset.sum_range_zero, Nat.factorial]; norm_num)
    (by simp only [Finset.sum_range_succ, Finset.sum_range_zero, Nat.factorial]; norm_num)
  have h24 := exp_neg_interval (33804 / 1841449 / 2048) (999991036523194535576953 / 10 ^ 24)
    (999991036523194535576954 / 10 ^ 24) 6 (by norm_num) (by norm_num) (by norm_num)
    (by simp only [Finset.sum_range_succ, Finset.sum_range_zero, Nat.factorial]; norm_num)
    (by simp only [Finset.sum_range_succ, Finset.sum_range_zero, Nat.factorial]; norm_num)
  have h25 := exp_neg_interval (5859 / 1841449 / 2048) (999998446420388792630967 / 10 ^ 24)
    (999998446420388792630968 / 10 ^ 24) 6 (by norm_num) (by norm_num) (by norm_num)
    (by simp only [Finset.sum_range_succ, Finset.sum_range_zero, Nat.factorial]; norm_num)
    (by simp only [Finset.sum_range_succ, Finset.sum_range_zero, Nat.factorial]; norm_num)
  have h26 := exp_neg_interval (6480 / 1841449 / 2048) (999998281755410178296926 / 10 ^ 24)
    (999998281755410178296927 / 10 ^ 24) 6 (by norm_num) (by norm_num) (by norm_num)
    (by simp only [Finset.sum_range_succ, Finset.sum_range_zero, Nat.factorial]; norm_num)
    (by simp only [Finset.sum_range_succ, Finset.sum_range_zero, Nat.factorial]; norm_num)
  have hA : (1505400719794081355 / 10 ^ 22 : ℝ) ≤ block_average (test_different_num_samples Real.exp)
        (gaussian_kernel Real.exp 2048 3) ∧
      block_average (test_different_num_samples Real.exp)
        (gaussian_kernel Real.exp 2048 3) ≤ 1505400719794081356 / 10 ^ 22 := by
    rw [test_different_num_samples_block_average]
    constructor
    · norm_num
      linarith [h0.1, h0.2, h1.1, h1.2, h2.1, h2.2, h3.1, h3.2, h4.1, h4.2, h5.1, h5.2, h6.1,
        h6.2, h7.1, h7.2, h8.1, h8.2, h9.1, h9.2, h10.1, h10.2, h11.1, h11.2, h12.1, h12.2,
        h13.1, h13.2, h14.1, h14.2, h15.1, h15.2, h16.1, h16.2, h17.1, h17.2, h18.1, h18.2,
        h19.1, h19.2, h20.1, h20.2, h21.1, h21.2, h22.1, h22.2, h23.1, h23.2, h24.1, h24.2,
        h25.1, h25.2, h26.1, h26.2]
    · norm_num
      linarith [h0.1, h0.2, h1.1, h1.2, h2.1, h2.2, h3.1, h3.2, h4.1, h4.2, h5.1, h5.2, h6.1,
        h6.2, h7.1, h7.2, h8.1, h8.2, h9.1, h9.2, h10.1, h10.2, h11.1, h11.2, h12.1, h12.2,
        h13.1, h13.2, h14.1, h14.2, h15.1, h15.2, h16.1, h16.2, h17.1, h17.2, h18.1, h18.2,
        h19.1, h19.2, h20.1, h20.2, h21.1, h21.2, h22.1, h22.2, h23.1, h23.2, h24.1, h24.2,
        h25.1, h25.2, h26.1, h26.2]
  have hS := test_different_num_samples_multiplier
  have hA0 : (0 : ℝ) ≤ block_average (test_different_num_samples Real.exp)
      (gaussian_kernel Real.exp 2048 3) := le_trans (by norm_num) hA.1
  have hup := mul_le_mul hS.2 hA.2 hA0 (by norm_num)
  have hdown := mul_le_mul hS.1 hA.1 (by norm_num) (le_trans (by norm_num) hS.1)
  rw [statistic_for, abs_le]
  constructor
  · norm_num at hup hdown ⊢
    linarith [hup, hdown]
  · norm_num at hup hdown ⊢
    linarith [hup, hdown]

/-- The three statistics of the tests `statistic_and_Q_fixed`,
`statistic_and_Q_fixed_DEPRECATED` and `statistic_and_variance_multiple_kernels_fixed_*`:
what the loops of compute_statistic_and_Q, compute_statistic(true) and
compute_statistic_and_variance end in is within `1E-15` of the expected
`0.000482892712133`, `0.000120736411855` and `0.000030184930162`, under every null
variance estimation method. -/
theorem test_multiple_kernels_statistics (method : ENullVarEstMethod)
    (entry : ENullVarEstMethod → Nat → Nat → ℝ)
    (null_term : ((Nat → ℝ) → (Nat → ℝ) → ℝ) → Nat → ℝ) (var_est_multiplier : ℝ) :
    (|(compute_statistic_and_Q Real.sqrt (test_multiple_kernels_fixed Real.exp method)
          entry).1.vector 0 - 0.000482892712133| ≤ 1e-15 ∧
      |(compute_statistic_and_Q Real.sqrt (test_multiple_kernels_fixed Real.exp method)
          entry).1.vector 1 - 0.000120736411855| ≤ 1e-15 ∧
      |(compute_statistic_and_Q Real.sqrt (test_multiple_kernels_fixed Real.exp method)
          entry).1.vector 2 - 0.000030184930162| ≤ 1e-15) ∧
    (|(compute_statistic_multiple Real.sqrt (test_multiple_kernels_fixed Real.exp method)
          null_term var_est_multiplier true).vector 0 - 0.000482892712133| ≤ 1e-15 ∧
      |(compute_statistic_multiple Real.sqrt (test_multiple_kernels_fixed Real.exp method)
          null_term var_est_multiplier true).vector 1 - 0.000120736411855| ≤ 1e-15 ∧
      |(compute_statistic_multiple Real.sqrt (test_multiple_kernels_fixed Real.exp method)
          null_term var_est_multiplier true).vector 2 - 0.000030184930162| ≤ 1e-15) ∧
    (|(compute_statistic_and_variance Real.sqrt (test_multiple_kernels_fixed Real.exp method)
          null_term var_est_multiplier true).1.vector 0 - 0.000482892712133| ≤ 1e-15 ∧
      |(compute_statistic_and_variance Real.sqrt (test_multiple_kernels_fixed Real.exp method)
          null_term var_est_multiplier true).1.vector 1 - 0.000120736411855| ≤ 1e-15 ∧
      |(compute_statistic_and_variance Real.sqrt (test_multiple_kernels_fixed Real.exp method)
          null_term var_est_multiplier true).1.vector 2 - 0.000030184930162| ≤ 1e-15) := by
  have h1 := test_multiple_kernels_first_statistic method
  have h2 := test_multiple_kernels_second_statistic method
  have h3 := test_multiple_kernels_third_statistic method
  have hB : (|(compute_statistic_and_variance Real.sqrt
          (test_multiple_kernels_fixed Real.exp method)
          null_term var_est_multiplier true).1.vector 0 - 0.000482892712133| ≤ 1e-15 ∧
      |(compute_statistic_and_variance Real.sqrt (test_multiple_kernels_fixed Real.exp method)
          null_term var_est_multiplier true).1.vector 1 - 0.000120736411855| ≤ 1e-15 ∧
      |(compute_statistic_and_variance Real.sqrt (test_multiple_kernels_fixed Real.exp method)
          null_term var_est_multiplier true).1.vector 2 - 0.000030184930162| ≤ 1e-15) := by
    simp only [compute_statistic_and_variance_closed]
    exact ⟨h1, h2, h3⟩
  refine ⟨?_, hB, hB⟩
  simp only [compute_statistic_and_Q_closed]
  exact ⟨h1, h2, h3⟩

/-- The first statistic of the test
`statistic_and_variance_fixed_multiple_kernels_different_num_samples`: what the loop of
compute_statistic_and_variance ends in is within `1E-15` of the expected
`0.000329816772926`. -/
theorem test_different_num_samples_statistic
    (null_term : ((Nat → ℝ) → (Nat → ℝ) → ℝ) → Nat → ℝ) (var_est_multiplier : ℝ) :
    |(compute_statistic_and_variance Real.sqrt (test_different_num_samples Real.exp)
        null_term var_est_multiplier true).1.vector 0 - 0.000329816772926| ≤ 1e-15 := by
  rw [compute_statistic_and_variance_closed]
  exact test_different_num_samples_first_statistic

/-- The variance estimate of the test
`statistic_and_variance_multiple_kernels_fixed_DEPRECATED` (four blocks, factor 4) in the
within-block estimates of the kernel `k`. -/
theorem test_multiple_kernels_variance_closed
    (null_term : ((Nat → ℝ) → (Nat → ℝ) → ℝ) → Nat → ℝ) (k : (Nat → ℝ) → (Nat → ℝ) → ℝ) :
    variance_estimate (test_multiple_kernels_fixed Real.exp .NO_PERMUTATION_DEPRECATED) 4
        (running_estimate (test_multiple_kernels_fixed Real.exp .NO_PERMUTATION_DEPRECATED)
          null_term k 4) =
      block_estimate (test_multiple_kernels_fixed Real.exp .NO_PERMUTATION_DEPRECATED) k 0 ^ 2 +
        block_estimate (test_multiple_kernels_fixed Real.exp .NO_PERMUTATION_DEPRECATED) k 1 ^ 2 +
        block_estimate (test_multiple_kernels_fixed Real.exp .NO_PERMUTATION_DEPRECATED) k 2 ^ 2 +
        block_estimate (test_multiple_kernels_fixed Real.exp .NO_PERMUTATION_DEPRECATED) k 3 ^ 2 -
      (block_estimate (test_multiple_kernels_fixed Real.exp .NO_PERMUTATION_DEPRECATED) k 0 +
        block_estimate (test_multiple_kernels_fixed Real.exp .NO_PERMUTATION_DEPRECATED) k 1 +
        block_estimate (test_multiple_kernels_fixed Real.exp .NO_PERMUTATION_DEPRECATED) k 2 +
        block_estimate (test_multiple_kernels_fixed Real.exp .NO_PERMUTATION_DEPRECATED) k 3) ^ 2 /
        4 := by
  rw [variance_estimate_deprecated _ null_term 4 k rfl 4 (by norm_num)]
  simp only [Finset.sum_range_succ, Finset.sum_range_zero]
  push_cast
  ring

/-- The within-block estimates of the four blocks of the test `statistic_and_Q_fixed` for a
Gaussian kernel of width `w`: the kernel value of the pair of `p` samples, plus the one of
the pair of `q` samples, minus half the sum of the four mixed kernel values of the block. -/
theorem test_multiple_kernels_block_estimate (w : ℝ) (method : ENullVarEstMethod) :
    block_estimate (test_multiple_kernels_fixed Real.exp method)
        (gaussian_kernel Real.exp w 3) 0 =
      Real.exp (-(27 / 529 / w)) + Real.exp (-(27 / 2209 / w)) -
        (1 / 2) * (Real.exp (-(837504 / 1168561 / w)) +
          Real.exp (-(1070379 / 1168561 / w)) +
          Real.exp (-(450459 / 1168561 / w)) +
          Real.exp (-(624960 / 1168561 / w))) ∧
    block_estimate (test_multiple_kernels_fixed Real.exp method)
        (gaussian_kernel Real.exp w 3) 1 =
      Real.exp (-(27 / 529 / w)) + Real.exp (-(27 / 2209 / w)) -
        (1 / 2) * (Real.exp (-(443520 / 1168561 / w)) +
          Real.exp (-(616779 / 1168561 / w)) +
          Real.exp (-(178299 / 1168561 / w)) +
          Real.exp (-(293184 / 1168561 / w))) ∧
    block_estimate (test_multiple_kernels_fixed Real.exp method)
        (gaussian_kernel Real.exp w 3) 2 =
      Real.exp (-(27 / 529 / w)) + Real.exp (-(27 / 2209 / w)) -
        (1 / 2) * (Real.exp (-(173952 / 1168561 / w)) +
          Real.exp (-(287595 / 1168561 / w)) +
          Real.exp (-(30555 / 1168561 / w)) +
          Real.exp (-(85824 / 1168561 / w))) ∧
    block_estimate (test_multiple_kernels_fixed Real.exp method)
        (gaussian_kernel Real.exp w 3) 3 =
      Real.exp (-(27 / 529 / w)) + Real.exp (-(27 / 2209 / w)) -
        (1 / 2) * (Real.exp (-(28800 / 1168561 / w)) +
          Real.exp (-(82827 / 1168561 / w)) +
          Real.exp (-(7227 / 1168561 / w)) +
          Real.exp (-(2880 / 1168561 / w))) := by
  refine ⟨?_, ?_, ?_, ?_⟩ <;>
  · simp only [block_estimate, block_p, block_q, test_multiple_kernels_fixed,
      unbiased_estimate, gaussian_kernel, test_stream, Finset.sum_range_succ,
      Finset.sum_range_zero]
    norm_num
    ring_nf

set_option maxHeartbeats 4000000 in
/-- The variance of the first sub-kernel (width 2048) in the test
`statistic_and_variance_multiple_kernels_fixed_DEPRECATED`: with the factor 4, the online
variance of the four within-block estimates is within `1E-14` of the value
`2.0930442445714591e-07` the test expects. -/
theorem test_multiple_kernels_first_variance
    (null_term : ((Nat → ℝ) → (Nat → ℝ) → ℝ) → Nat → ℝ) :
    |variance_estimate (test_multiple_kernels_fixed Real.exp .NO_PERMUTATION_DEPRECATED) 4
        (running_estimate (test_multiple_kernels_fixed Real.exp .NO_PERMUTATION_DEPRECATED)
          null_term (gaussian_kernel Real.exp 2048 3) 4) - 2.0930442445714591e-07| ≤ 1e-14 := by
  have h0 := exp_neg_interval (27 / 529 / 2048) (999975078583227976450825 / 10 ^ 24)
    (999975078583227976450826 / 10 ^ 24) 6 (by norm_num) (by norm_num) (by norm_num)
    (by simp only [Finset.sum_range_succ, Finset.sum_range_zero, Nat.factorial]; norm_num)
    (by simp only [Finset.sum_range_succ, Finset.sum_range_zero, Nat.factorial]; norm_num)
  have h1 := exp_neg_interval (27 / 2209 / 2048) (999994031890262836689306 / 10 ^ 24)
    (999994031890262836689307 / 10 ^ 24) 6 (by norm_num) (by norm_num) (by norm_num)
    (by simp only [Finset.sum_range_succ, Finset.sum_range_zero, Nat.factorial]; norm_num)
    (by simp only [Finset.sum_range_succ, Finset.sum_range_zero, Nat.factorial]; norm_num)
  have h2 := exp_neg_interval (837504 / 1168561 / 2048) (999650111586317893508639 / 10 ^ 24)
    (999650111586317893508646 / 10 ^ 24) 6 (by norm_num) (by norm_num) (by norm_num)
    (by simp only [Finset.sum_range_succ, Finset.sum_range_zero, Nat.factorial]; norm_num)
    (by simp only [Finset.sum_range_succ, Finset.sum_range_zero, Nat.factorial]; norm_num)
  have h3 := exp_neg_interval (1070379 / 1168561 / 2048) (999552843937782876969742 / 10 ^ 24)
    (999552843937782876969769 / 10 ^ 24) 6 (by norm_num) (by norm_num) (by norm_num)
    (by simp only [Finset.sum_range_succ, Finset.sum_range_zero, Nat.factorial]; norm_num)
    (by simp only [Finset.sum_range_succ, Finset.sum_range_zero, Nat.factorial]; norm_num)
  have h4 := exp_neg_interval (450459 / 1168561 / 2048) (999811794176816863798549 / 10 ^ 24)
    (999811794176816863798550 / 10 ^ 24) 6 (by norm_num) (by norm_num) (by norm_num)
    (by simp only [Finset.sum_range_succ, Finset.sum_range_zero, Nat.factorial]; norm_num)
    (by simp only [Finset.sum_range_succ, Finset.sum_range_zero, Nat.factorial]; norm_num)
  have h5 := exp_neg_interval (624960 / 1168561 / 2048) (999738895607976367818345 / 10 ^ 24)
    (999738895607976367818347 / 10 ^ 24) 6 (by norm_num) (by norm_num) (by norm_num)
    (by simp only [Finset.sum_range_succ, Finset.sum_range_zero, Nat.factorial]; norm_num)
    (by simp only [Finset.sum_range_succ, Finset.sum_range_zero, Nat.factorial]; norm_num)
  have h6 := exp_neg_interval (443520 / 1168561 / 2048) (999814693084814718877179 / 10 ^ 24)
    (999814693084814718877180 / 10 ^ 24) 6 (by norm_num) (by norm_num) (by norm_num)
    (by simp only [Finset.sum_range_succ, Finset.sum_range_zero, Nat.factorial]; norm_num)
    (by simp only [Finset.sum_range_succ, Finset.sum_range_zero, Nat.factorial]; norm_num)
  have h7 := exp_neg_interval (616779 / 1168561 / 2048) (999742313138355164478664 / 10 ^ 24)
    (999742313138355164478666 / 10 ^ 24) 6 (by norm_num) (by norm_num) (by norm_num)
    (by simp only [Finset.sum_range_succ, Finset.sum_range_zero, Nat.factorial]; norm_num)
    (by simp only [Finset.sum_range_succ, Finset.sum_range_zero, Nat.factorial]; norm_num)
  have h8 := exp_neg_interval (178299 / 1168561 / 2048) (999925500837694596544073 / 10 ^ 24)
    (999925500837694596544074 / 10 ^ 24) 6 (by norm_num) (by norm_num) (by norm_num)
    (by simp only [Finset.sum_range_succ, Finset.sum_range_zero, Nat.factorial]; norm_num)
    (by simp only [Finset.sum_range_succ, Finset.sum_range_zero, Nat.factorial]; norm_num)
  have h9 := exp_neg_interval (293184 / 1168561 / 2048) (999877501061924306633601 / 10 ^ 24)
    (999877501061924306633602 / 10 ^ 24) 6 (by norm_num) (by norm_num) (by norm_num)
    (by simp only [Finset.sum_range_succ, Finset.sum_range_zero, Nat.factorial]; norm_num)
    (by simp only [Finset.sum_range_succ, Finset.sum_range_zero, Nat.factorial]; norm_num)
  have h10 := exp_neg_interval (173952 / 1168561 / 2048) (999927317090669378278175 / 10 ^ 24)
    (999927317090669378278176 / 10 ^ 24) 6 (by norm_num) (by norm_num) (by norm_num)
    (by simp only [Finset.sum_range_succ, Finset.sum_range_zero, Nat.factorial]; norm_num)
    (by simp only [Finset.sum_range_succ, Finset.sum_range_zero, Nat.factorial]; norm_num)
  have h11 := exp_neg_interval (287595 / 1168561 / 2048) (999879836132829785295830 / 10 ^ 24)
    (999879836132829785295831 / 10 ^ 24) 6 (by norm_num) (by norm_num) (by norm_num)
    (by simp only [Finset.sum_range_succ, Finset.sum_range_zero, Nat.factorial]; norm_num)
    (by simp only [Finset.sum_range_succ, Finset.sum_range_zero, Nat.factorial]; norm_num)
  have h12 := exp_neg_interval (30555 / 1168561 / 2048) (999987232726102189108500 / 10 ^ 24)
    (999987232726102189108501 / 10 ^ 24) 6 (by norm_num) (by norm_num) (by norm_num)
    (by simp only [Finset.sum_range_succ, Finset.sum_range_zero, Nat.factorial]; norm_num)
    (by simp only [Finset.sum_range_succ, Finset.sum_range_zero, Nat.factorial]; norm_num)
  have h13 := exp_neg_interval (85824 / 1168561 / 2048) (999964139228846171999938 / 10 ^ 24)
    (999964139228846171999939 / 10 ^ 24) 6 (by norm_num) (by norm_num) (by norm_num)
    (by simp only [Finset.sum_range_succ, Finset.sum_range_zero, Nat.factorial]; norm_num)
    (by simp only [Finset.sum_range_succ, Finset.sum_range_zero, Nat.factorial]; norm_num)
  have h14 := exp_neg_interval (28800 / 1168561 / 2048) (999987966040809119308580 / 10 ^ 24)
    (999987966040809119308581 / 10 ^ 24) 6 (by norm_num) (by norm_num) (by norm_num)
    (by simp only [Finset.sum_range_succ, Finset.sum_range_zero, Nat.factorial]; norm_num)
    (by simp only [Finset.sum_range_succ, Finset.sum_range_zero, Nat.factorial]; norm_num)
  have h15 := exp_neg_interval (82827 / 1168561 / 2048) (999965391476135453325145 / 10 ^ 24)
    (999965391476135453325146 / 10 ^ 24) 6 (by norm_num) (by norm_num) (by norm_num)
    (by simp only [Finset.sum_range_succ, Finset.sum_range_zero, Nat.factorial]; norm_num)
    (by simp only [Finset.sum_range_succ, Finset.sum_range_zero, Nat.factorial]; norm_num)
  have h16 := exp_neg_interval (7227 / 1168561 / 2048) (999996980214755048939221 / 10 ^ 24)
    (999996980214755048939222 / 10 ^ 24) 6 (by norm_num) (by norm_num) (by norm_num)
    (by simp only [Finset.sum_range_succ, Finset.sum_range_zero, Nat.factorial]; norm_num)
    (by simp only [Finset.sum_range_succ, Finset.sum_range_zero, Nat.factorial]; norm_num)
  have h17 := exp_neg_interval (2880 / 1168561 / 2048) (999998796597564134441784 / 10 ^ 24)
    (999998796597564134441785 / 10 ^ 24) 6 (by norm_num) (by norm_num) (by norm_num)
    (by simp only [Finset.sum_range_succ, Finset.sum_range_zero, Nat.factorial]; norm_num)
    (by simp only [Finset.sum_range_succ, Finset.sum_range_zero, Nat.factorial]; norm_num)
  obtain ⟨e0, e1, e2, e3⟩ := test_multiple_kernels_block_estimate 2048
    .NO_PERMUTATION_DEPRECATED
  rw [test_multiple_kernels_variance_closed]
  generalize block_estimate (test_multiple_kernels_fixed Real.exp .NO_PERMUTATION_DEPRECATED)
    (gaussian_kernel Real.exp 2048 3) 0 = a0 at e0 ⊢
  generalize block_estimate (test_multiple_kernels_fixed Real.exp .NO_PERMUTATION_DEPRECATED)
    (gaussian_kernel Real.exp 2048 3) 1 = a1 at e1 ⊢
  generalize block_estimate (test_multiple_kernels_fixed Real.exp .NO_PERMUTATION_DEPRECATED)
    (gaussian_kernel Real.exp 2048 3) 2 = a2 at e2 ⊢
  generalize block_estimate (test_multiple_kernels_fixed Real.exp .NO_PERMUTATION_DEPRECATED)
    (gaussian_kernel Real.exp 2048 3) 3 = a3 at e3 ⊢
  have l0 : (23691512761752483699 / 40000000000000000000000 : ℝ) ≤ a0 := by
    rw [e0]
    linarith [h0.1, h0.2, h1.1, h1.2, h2.1, h2.2, h3.1, h3.2, h4.1, h4.2, h5.1, h5.2]
  have u0 : a0 ≤ (1184575638087624184991 / 2000000000000000000000000 : ℝ) := by
    rw [e0]
    linarith [h0.1, h0.2, h1.1, h1.2, h2.1, h2.2, h3.1, h3.2, h4.1, h4.2, h5.1, h5.2]
  have l1 : (28910641209641987337 / 100000000000000000000000 : ℝ) ≤ a1 := by
    rw [e1]
    linarith [h0.1, h0.2, h1.1, h1.2, h6.1, h6.2, h7.1, h7.2, h8.1, h8.2, h9.1, h9.2]
  have u1 : a1 ≤ (578212824192839746749 / 2000000000000000000000000 : ℝ) := by
    rw [e1]
    linarith [h0.1, h0.2, h1.1, h1.2, h6.1, h6.2, h7.1, h7.2, h8.1, h8.2, h9.1, h9.2]
  have l2 : (35939153706820319563 / 400000000000000000000000 : ℝ) ≤ a2 := by
    rw [e2]
    linarith [h0.1, h0.2, h1.1, h1.2, h10.1, h10.2, h11.1, h11.2, h12.1, h12.2, h13.1, h13.2]
  have u2 : a2 ≤ (179695768534101597823 / 2000000000000000000000000 : ℝ) := by
    rw [e2]
    linarith [h0.1, h0.2, h1.1, h1.2, h10.1, h10.2, h11.1, h11.2, h12.1, h12.2, h13.1, h13.2]
  have l3 : (-1364172785266216809 / 250000000000000000000000 : ℝ) ≤ a3 := by
    rw [e3]
    linarith [h0.1, h0.2, h1.1, h1.2, h14.1, h14.2, h15.1, h15.2, h16.1, h16.2, h17.1, h17.2]
  have u3 : a3 ≤ (-170521598158277101 / 31250000000000000000000 : ℝ) := by
    rw [e3]
    linarith [h0.1, h0.2, h1.1, h1.2, h14.1, h14.2, h15.1, h15.2, h16.1, h16.2, h17.1, h17.2]
  clear e0 e1 e2 e3 h0 h1 h2 h3 h4 h5 h6 h7 h8 h9 h10 h11 h12 h13 h14 h15 h16 h17
  have ql0 : (23691512761752483699 / 40000000000000000000000 : ℝ) ^ 2 ≤ a0 ^ 2 :=
    pow_le_pow_left₀ (by norm_num) l0 2
  have qu0 : a0 ^ 2 ≤ (1184575638087624184991 / 2000000000000000000000000 : ℝ) ^ 2 :=
    pow_le_pow_left₀ (le_trans (by norm_num) l0) u0 2
  have ql1 : (28910641209641987337 / 100000000000000000000000 : ℝ) ^ 2 ≤ a1 ^ 2 :=
    pow_le_pow_left₀ (by norm_num) l1 2
  have qu1 : a1 ^ 2 ≤ (578212824192839746749 / 2000000000000000000000000 : ℝ) ^ 2 :=
    pow_le_pow_left₀ (le_trans (by norm_num) l1) u1 2
  have ql2 : (35939153706820319563 / 400000000000000000000000 : ℝ) ^ 2 ≤ a2 ^ 2 :=
    pow_le_pow_left₀ (by norm_num) l2 2
  have qu2 : a2 ^ 2 ≤ (179695768534101597823 / 2000000000000000000000000 : ℝ) ^ 2 :=
    pow_le_pow_left₀ (le_trans (by norm_num) l2) u2 2
  have ql3 : (-(-170521598158277101 / 31250000000000000000000) : ℝ) ^ 2 ≤ (-a3) ^ 2 :=
    pow_le_pow_left₀ (by norm_num) (neg_le_neg u3) 2
  have qu3 : (-a3) ^ 2 ≤ (-(-1364172785266216809 / 250000000000000000000000) : ℝ) ^ 2 :=
    pow_le_pow_left₀ (le_trans (by norm_num) (neg_le_neg u3)) (neg_le_neg l3) 2
  have sl : (1931570848532435795033 / 2000000000000000000000000 : ℝ) ≤ a0 + a1 + a2 + a3 := by linarith
  have su : a0 + a1 + a2 + a3 ≤ (1931570848532435795099 / 2000000000000000000000000 : ℝ) := by linarith
  have qsl : (1931570848532435795033 / 2000000000000000000000000 : ℝ) ^ 2 ≤ (a0 + a1 + a2 + a3) ^ 2 :=
    pow_le_pow_left₀ (by norm_num) sl 2
  have qsu : (a0 + a1 + a2 + a3) ^ 2 ≤ (1931570848532435795099 / 2000000000000000000000000 : ℝ) ^ 2 :=
    pow_le_pow_left₀ (le_trans (by norm_num) sl) su 2
  simp only [neg_sq] at ql3 qu3
  generalize (a0 + a1 + a2 + a3) ^ 2 = s2 at qsl qsu ⊢
  generalize a0 ^ 2 = b0 at ql0 qu0 ⊢
  generalize a1 ^ 2 = b1 at ql1 qu1 ⊢
  generalize a2 ^ 2 = b2 at ql2 qu2 ⊢
  generalize a3 ^ 2 = b3 at ql3 qu3 ⊢
  norm_num at ql0 qu0 ql1 qu1 ql2 qu2 ql3 qu3 qsl qsu
  rw [abs_le]
  constructor
  · norm_num
    linarith
  · norm_num
    linarith

/-- The first variance of the test
`statistic_and_variance_multiple_kernels_fixed_DEPRECATED`: with the factor 4 of the
variance, what the loop of compute_statistic_and_variance ends in along the branch of
NO_PERMUTATION_DEPRECATED is within `1E-14` of the expected `2.0930442445714591e-07`. -/
theorem test_multiple_kernels_deprecated_variance
    (null_term : ((Nat → ℝ) → (Nat → ℝ) → ℝ) → Nat → ℝ) :
    |(compute_statistic_and_variance Real.sqrt
        (test_multiple_kernels_fixed Real.exp .NO_PERMUTATION_DEPRECATED)
        null_term 4 true).2.vector 0 - 2.0930442445714591e-07| ≤ 1e-14 :=
  test_multiple_kernels_first_variance null_term


end CLinearTimeMMD

end Shogun
